import Mathlib

/-!
# Fuel-cell billing chaincode: a shallow embedding of `smartcontract.go`

The Go contract keeps six kinds of JSON documents in the ledger's world state and
bills the use of leased fuel cells.  This file embeds the data model and the
operations of `chaincode/smartcontract.go` as Lean functions and proves
properties of the billing engine.

Modelling conventions
* A stored document is an `Asset`; the constructor plays the role of the JSON
  field `AssetType`, which every write of the contract sets to the name of the
  Go struct being stored.
* `float32` values are read as exact rationals (`ℚ`).
* Go `int` is a 64-bit two's-complement integer: values are `Int`, and the one
  subtraction performed by the contract is wrapped by `wrapInt64`.
* The world state is the key-value interface the contract consumes (`GetState`,
  `PutState`, `GetQueryResult`): point lookup, upsert and attribute-equality
  query.  Lookup and upsert do not fail; a query fails only on a selector text
  that is not JSON.  Operations thread the store explicitly and return the
  outcome together with the store they leave behind; a write is visible to the
  reads that follow it and is not undone when the call later fails.
* A Go `error` return is `Fault.error`; a run-time panic is `Fault.panic`.
* The three selectors that take an id paste it into the selector text between double
  quotes, unescaped (`fmt.Sprintf`, lines 291, 314, 354).  For an id without double
  quote, backslash or control character the text is the equality selector on the id.
  For an id that makes the text malformed the stub returns an error.  Every other case
  (escape sequences, text that goes on as JSON after the id's double quote) is marked
  `Fault.unmodelled` and not followed.
-/

namespace Chaincode

/-! ## Data model -/

/-- Go struct `Car`. -/
structure Car where
  Car_ID : String
  Date_of_manufacture : String
  Misc : String
  deriving DecidableEq

/-- Go struct `CarComponent`. -/
structure CarComponent where
  Car_Component_ID : String
  Car_ID : String
  Fuelcell_ID : String
  Date_added : Int
  Date_removed : Int
  deriving DecidableEq

/-- Go struct `Supplier`. -/
structure Supplier where
  Supplier_ID : String
  Supplier_name : String
  Misc : String
  deriving DecidableEq

/-- Go struct `FuelcellData`. -/
structure FuelcellData where
  Fuelcell_ID : String
  Supplier_ID : String
  Base_rate : ℚ
  Distance_rate : ℚ
  Energy_rate : ℚ
  Currency : String
  Date_Received : Int
  Date_Returned : Int
  Misc : String
  deriving DecidableEq

/-- Go struct `JourneyData`. -/
structure JourneyData where
  Journey_ID : String
  Car_ID : String
  Car_Component_ID : String
  Odo_start : Int
  Distance : Int
  H2_used : Int
  Efficiency : ℚ
  Journey_date : Int
  Billed : Bool
  Misc : String
  deriving DecidableEq

/-- Go struct `Bill`. -/
structure Bill where
  Bill_ID : String
  Supplier_ID : String
  Fuelcell_ID : String
  Date_from : Int
  Date_to : Int
  Currency : String
  Amount : ℚ
  deriving DecidableEq

/-- A document of the world state; the constructor is its `AssetType`. -/
inductive Asset where
  | car (c : Car)
  | carComponent (c : CarComponent)
  | supplier (s : Supplier)
  | fuelcell (f : FuelcellData)
  | journey (j : JourneyData)
  | bill (b : Bill)
  deriving DecidableEq

/-- The primary-key field of a document (`Car_ID`, `Car_Component_ID`, ...). -/
def Asset.ownID : Asset → String
  | .car c => c.Car_ID
  | .carComponent c => c.Car_Component_ID
  | .supplier s => s.Supplier_ID
  | .fuelcell f => f.Fuelcell_ID
  | .journey j => j.Journey_ID
  | .bill b => b.Bill_ID

/-! ## Errors -/

/-- The error values the contract returns, one constructor per `return` site. -/
inductive Err where
  /-- `strconv.Atoi` failed (invalid syntax or value out of range). -/
  | atoi
  /-- "this bill would start encapulate another bills start time" -/
  | encapsulatesStart
  /-- "this bill would start encapulate another bills end time" -/
  | encapsulatesEnd
  /-- "this bill would start inside a time frame covered by another bill" -/
  | startsInside
  /-- "this bill would end inside a time frame covered by another bill" -/
  | endsInside
  /-- "fuelcell %s didn't exist in this time frame" -/
  | fuelcellNotYetReceived
  /-- "fuelcell %s had been returned before this time frame" -/
  | fuelcellAlreadyReturned
  /-- "the bill %s already exists" -/
  | billExists
  /-- "the Supplier %s Doesn't exist" -/
  | supplierMissing
  /-- "the FuelCell_ID %s Doesn't exist" -/
  | fuelcellMissing
  /-- "the asset %s already exists" -/
  | assetExists
  /-- "the Car %s Doesn't exist" -/
  | carMissing
  /-- "the FuelSupplier %s Doesn't exist" -/
  | fuelSupplierMissing
  /-- "the asset %s does not exist" -/
  | assetMissing
  /-- The error returned by the stub's `GetQueryResult` for a selector text that is not
  JSON. -/
  | query
  deriving DecidableEq

/-- The way a call ends when it does not succeed. -/
inductive Fault where
  /-- The call returned a non-nil `error`. -/
  | error (e : Err)
  /-- The call dereferenced a nil pointer. -/
  | panic
  /-- The call sent the store a selector text that is JSON but is not the equality selector
  on the id it was built from; the embedding does not follow the call further. -/
  | unmodelled
  deriving DecidableEq

/-- The errors returned by the overlap check of `GenerateBill` (lines 204-221). -/
def Err.isOverlap : Err → Bool
  | .encapsulatesStart | .encapsulatesEnd | .startsInside | .endsInside => true
  | _ => false

/-! ## Machine integers and `strconv.Atoi` -/

/-- Two's-complement wrap of an integer to the 64-bit range of Go's `int`. -/
def wrapInt64 (n : Int) : Int :=
  (n + 2 ^ 63) % 2 ^ 64 - 2 ^ 63

/-- The value of an ASCII decimal digit. -/
def digitValue (c : Char) : Option Nat :=
  if 48 ≤ c.toNat ∧ c.toNat ≤ 57 then some (c.toNat - 48) else none

/-- The value of a string of decimal digits, most significant first. -/
def parseDigits : List Char → Nat → Option Nat
  | [], acc => some acc
  | c :: cs, acc =>
    match digitValue c with
    | none => none
    | some d => parseDigits cs (acc * 10 + d)

/-- Go's `strconv.Atoi`: an optional sign followed by at least one decimal digit, the
value lying in the `int` range; `none` stands for the returned error. -/
def Atoi (s : String) : Option Int :=
  let signed : Bool × List Char :=
    match s.toList with
    | '-' :: ds => (true, ds)
    | '+' :: ds => (false, ds)
    | ds => (false, ds)
  match signed.2 with
  | [] => none
  | ds =>
    match parseDigits ds 0 with
    | none => none
    | some n =>
      let v : Int := if signed.1 then -(n : Int) else (n : Int)
      if -(2 ^ 63 : Int) ≤ v ∧ v ≤ 2 ^ 63 - 1 then some v else none

/-! ## World state -/

/-- Modelled from the spec: the record store the contract runs against (section 6), which is
not part of the contract's source.  Documents stand under pairwise distinct keys; the order of
the list is the order in which a query yields them. -/
structure Store where
  entries : List (String × Asset)
  nodup : (entries.map Prod.fst).Nodup

/-- The store holding nothing. -/
def Store.empty : Store := ⟨[], List.nodup_nil⟩

/-- The document standing under `key` in a list of entries. -/
def lookupKey (key : String) : List (String × Asset) → Option Asset
  | [] => none
  | (k, v) :: rest => if k = key then some v else lookupKey key rest

/-- Modelled from the spec: `get(key) → record | absent`, the stub's `GetState`. -/
def Store.get (st : Store) (key : String) : Option Asset :=
  lookupKey key st.entries

/-- Replace the document under `key` where it stands, or append it when the key is new. -/
def upsert (key : String) (a : Asset) : List (String × Asset) → List (String × Asset)
  | [] => [(key, a)]
  | (k, v) :: rest => if k = key then (key, a) :: rest else (k, v) :: upsert key a rest

/-- Modelled from the spec: `put(key, record)`, an upsert, the stub's `PutState`. -/
def Store.put (st : Store) (key : String) (a : Asset) : Store :=
  ⟨upsert key a st.entries, by
    have keys : ∀ l : List (String × Asset),
        (upsert key a l).map Prod.fst =
          if key ∈ l.map Prod.fst then l.map Prod.fst else l.map Prod.fst ++ [key] := by
      intro l
      induction l with
      | nil => simp [upsert]
      | cons kv rest ih =>
        obtain ⟨k, v⟩ := kv
        by_cases hk : k = key
        · simp [upsert, hk]
        · have hk2 : ¬ key = k := fun e => hk e.symm
          by_cases hm : key ∈ rest.map Prod.fst
          · rw [if_pos hm] at ih
            simp only [upsert, hk, if_false, List.map_cons, ih, List.mem_cons, hk2, hm,
              false_or, if_true]
          · rw [if_neg hm] at ih
            simp only [upsert, hk, if_false, List.map_cons, ih, List.mem_cons, hk2, hm,
              false_or, List.cons_append]
    rw [keys]
    by_cases hm : key ∈ st.entries.map Prod.fst
    · rw [if_pos hm]; exact st.nodup
    · rw [if_neg hm]
      exact List.Nodup.append st.nodup (List.nodup_singleton key) (by simpa using hm)⟩

/-- `AssetExists` (lines 777-784): does any document stand under the key? -/
def AssetExists (st : Store) (Asset_ID : String) : Bool :=
  (st.get Asset_ID).isSome

/-! ## Queries -/

/-- Modelled from the spec: `queryByAttributes`, the stub's `GetQueryResult`, with selector
`AssetType = "Bill"`. -/
def queryBills (st : Store) : List Bill :=
  st.entries.filterMap fun kv =>
    match kv.2 with
    | .bill b => some b
    | _ => none

/-- Modelled from the spec: `queryByAttributes` with selector `AssetType = "Fuelcell"`,
`Fuelcell_ID = id`. -/
def queryFuelcells (st : Store) (Fuelcell_ID : String) : List FuelcellData :=
  st.entries.filterMap fun kv =>
    match kv.2 with
    | .fuelcell f => if f.Fuelcell_ID = Fuelcell_ID then some f else none
    | _ => none

/-- Modelled from the spec: `queryByAttributes` with selector `AssetType = "Car_Component"`,
`Fuelcell_ID = id`. -/
def queryCarComponents (st : Store) (FuelcellID : String) : List CarComponent :=
  st.entries.filterMap fun kv =>
    match kv.2 with
    | .carComponent c => if c.Fuelcell_ID = FuelcellID then some c else none
    | _ => none

/-- Modelled from the spec: `queryByAttributes` with selector `AssetType = "Journey"`,
`Car_Component_ID = id`. -/
def queryJourneys (st : Store) (Car_Component_ID : String) : List JourneyData :=
  st.entries.filterMap fun kv =>
    match kv.2 with
    | .journey j => if j.Car_Component_ID = Car_Component_ID then some j else none
    | _ => none

/-- How the JSON reader of the store takes a selector text from the place where an id was
pasted between double quotes. -/
inductive PastedKind where
  /-- The id holds no double quote, backslash or control character: the string literal is
  the id and the text is the equality selector meant. -/
  | plain
  /-- The text is not JSON: the literal holds a control character, or it ends at a double
  quote of the id and what follows is neither `,` nor the closing brace. -/
  | malformed
  /-- Any other text: it holds a backslash, or goes on after a double quote of the id with
  `,` or a closing brace. -/
  | other
  deriving DecidableEq

/-- Drop leading JSON whitespace (space, tab, line feed, carriage return), given as character
codes. -/
def skipSpace : List Nat → List Nat
  | [] => []
  | c :: cs => if c = 32 ∨ c = 9 ∨ c = 10 ∨ c = 13 then skipSpace cs else c :: cs

/-- Read a string literal from just after its opening double quote to the end of the text;
characters are given by their codes (34 the double quote, 92 the backslash, 44 the comma,
125 the closing brace). -/
def scanLiteral : List Nat → PastedKind
  | [] => .malformed
  | c :: cs =>
    if c = 34 then
      if cs = [125, 125] then .plain
      else
        match skipSpace cs with
        | 44 :: _ => .other
        | 125 :: _ => .other
        | _ => .malformed
    else if c = 92 then .other
    else if c < 32 then .malformed
    else scanLiteral cs

/-- The kind of the selector text `...:"%s"}}` built from an id (lines 291, 314, 354): the
id is followed by the double quote and the two closing braces of the format string. -/
def pastedKind (id : String) : PastedKind :=
  scanLiteral (id.toList.map Char.toNat ++ [34, 125, 125])

/-- Modelled from the spec: the outcome of the stub's `GetQueryResult` on a selector text built
from `id`, given the documents `docs` that satisfy the equality selector on `id`. -/
def queryResult {α : Type} (id : String) (docs : List α) : Except Fault (List α) :=
  match pastedKind id with
  | .plain => .ok docs
  | .malformed => .error (.error .query)
  | .other => .error .unmodelled

/-- `GetAllBills` (lines 612-634): every stored bill, in query order. -/
def GetAllBills (st : Store) : List Bill :=
  queryBills st

/-- `GetFuelcell` (lines 290-312): the error of the query is returned; otherwise the loop
keeps the last document of the query in `assets`, and the result is the nil pointer (`none`)
when the query is empty. -/
def GetFuelcell (st : Store) (Fuelcell_ID : String) : Except Fault (Option FuelcellData) :=
  match queryResult Fuelcell_ID (queryFuelcells st Fuelcell_ID) with
  | .error e => .error e
  | .ok results => .ok (results.foldl (fun _ asset => some asset) none)

/-- The test of line 346 on one component. -/
def componentInWindow (intStartDate intEndDate : Int) (asset : CarComponent) : Bool :=
  (asset.Date_removed = 0 ∨ intStartDate ≤ asset.Date_removed) ∧ asset.Date_added ≤ intEndDate

/-- The loop of `GetAllCarCompForFuelCellBetweenDates` (lines 321-349); both dates are
parsed afresh for every document of the query. -/
def carComponentLoop (startDate endDate : String) :
    List CarComponent → List CarComponent → Except Fault (List CarComponent)
  | [], assets => .ok assets
  | asset :: rest, assets =>
    match Atoi endDate with
    | none => .error (.error .atoi)
    | some intEndDate =>
      match Atoi startDate with
      | none => .error (.error .atoi)
      | some intStartDate =>
        if componentInWindow intStartDate intEndDate asset then
          carComponentLoop startDate endDate rest (assets ++ [asset])
        else
          carComponentLoop startDate endDate rest assets

/-- `GetAllCarCompForFuelCellBetweenDates` (lines 313-352): the error of the query is
returned; otherwise the loop runs over its documents. -/
def GetAllCarCompForFuelCellBetweenDates (st : Store) (FuelcellID startDate endDate : String) :
    Except Fault (List CarComponent) :=
  match queryResult FuelcellID (queryCarComponents st FuelcellID) with
  | .error e => .error e
  | .ok results => carComponentLoop startDate endDate results []

/-- The test of line 379 on one journey. -/
def journeyInWindow (intStartDate intEndDate : Int) (asset : JourneyData) : Bool :=
  intStartDate < asset.Journey_date ∧ asset.Journey_date < intEndDate

/-- The loop of `GetAllJourneysbetweendatesforCarComponent` (lines 361-382). -/
def journeyLoop (startDate endDate : String) :
    List JourneyData → List JourneyData → Except Fault (List JourneyData)
  | [], assets => .ok assets
  | asset :: rest, assets =>
    match Atoi startDate with
    | none => .error (.error .atoi)
    | some intStartDate =>
      match Atoi endDate with
      | none => .error (.error .atoi)
      | some intEndDate =>
        if journeyInWindow intStartDate intEndDate asset then
          journeyLoop startDate endDate rest (assets ++ [asset])
        else
          journeyLoop startDate endDate rest assets

/-- `GetAllJourneysbetweendatesforCarComponent` (lines 353-385): the error of the query is
returned; otherwise the loop runs over its documents. -/
def GetAllJourneysbetweendatesforCarComponent (st : Store)
    (Car_Component_ID startDate endDate : String) : Except Fault (List JourneyData) :=
  match queryResult Car_Component_ID (queryJourneys st Car_Component_ID) with
  | .error e => .error e
  | .ok results => journeyLoop startDate endDate results []

/-- Modelled from the spec: `queryByAttributes` with selector `AssetType = "Journey"`. -/
def queryAllJourneys (st : Store) : List JourneyData :=
  st.entries.filterMap fun kv =>
    match kv.2 with
    | .journey j => some j
    | _ => none

/-- `GetAllJourneysbetweendates` (lines 723-755); its loop is that of lines 361-382. -/
def GetAllJourneysbetweendates (st : Store) (startDate endDate : String) :
    Except Fault (List JourneyData) :=
  journeyLoop startDate endDate (queryAllJourneys st) []

/-! ## Creating assets -/

/-- `CreateNewBill` (lines 388-435). -/
def CreateNewBill (st : Store) (Bill_ID Supplier_ID Fuelcell_ID startDate endDate Currency : String)
    (amount : ℚ) : Except Fault Unit × Store :=
  if AssetExists st Bill_ID then (.error (.error .billExists), st)
  else if !AssetExists st Supplier_ID then (.error (.error .supplierMissing), st)
  else if !AssetExists st Fuelcell_ID then (.error (.error .fuelcellMissing), st)
  else
    match Atoi endDate with
    | none => (.error (.error .atoi), st)
    | some intEndDate =>
      match Atoi startDate with
      | none => (.error (.error .atoi), st)
      | some intStartDate =>
        let asset : Bill :=
          { Bill_ID := Bill_ID, Supplier_ID := Supplier_ID, Fuelcell_ID := Fuelcell_ID,
            Date_from := intStartDate, Date_to := intEndDate, Currency := Currency,
            Amount := amount }
        (.ok (), st.put Bill_ID (.bill asset))

/-- `CreateJourney` (lines 438-494).  The variable `exists` is assigned once, by the
lookup of `Journey_ID`, and is tested three times. -/
def CreateJourney (st : Store) (Journey_ID Car_ID Car_Component_ID Odo_start Distance
    H2_used : String) (Efficiency : ℚ) (FuelSupplier Date : String) :
    Except Fault Unit × Store :=
  let found := AssetExists st Journey_ID
  if found then (.error (.error .assetExists), st)
  else if !found then (.error (.error .carMissing), st)
  else if !found then (.error (.error .fuelSupplierMissing), st)
  else
    match Atoi Odo_start with
    | none => (.error (.error .atoi), st)
    | some intOdo_start =>
      match Atoi Distance with
      | none => (.error (.error .atoi), st)
      | some intDistance =>
        match Atoi H2_used with
        | none => (.error (.error .atoi), st)
        | some intH2_used =>
          match Atoi Date with
          | none => (.error (.error .atoi), st)
          | some intDate =>
            let asset : JourneyData :=
              { Journey_ID := Journey_ID, Car_ID := Car_ID,
                Car_Component_ID := Car_Component_ID, Odo_start := intOdo_start,
                Distance := intDistance, H2_used := intH2_used, Efficiency := Efficiency,
                Journey_date := intDate, Billed := false, Misc := "" }
            (.ok (), st.put Journey_ID (.journey asset))

/-! ## Billing -/

/-- The four tests of lines 206-219 of a candidate window against one past bill; the
first that holds gives the error returned. -/
def overlapError (intStartDate intEndDate : Int) (PastBill : Bill) : Option Err :=
  if intStartDate < PastBill.Date_from ∧ PastBill.Date_from < intEndDate then
    some .encapsulatesStart
  else if intStartDate ≤ PastBill.Date_to ∧ PastBill.Date_to ≤ intEndDate then
    some .encapsulatesEnd
  else if PastBill.Date_from < intStartDate ∧ intStartDate < PastBill.Date_to then
    some .startsInside
  else if PastBill.Date_from ≤ intEndDate ∧ intEndDate ≤ PastBill.Date_to then
    some .endsInside
  else none

/-- The loop of lines 204-221 over the past bills. -/
def overlapCheck (Fuelcell : FuelcellData) (intStartDate intEndDate : Int) :
    List Bill → Option Err
  | [] => none
  | PastBill :: rest =>
    if PastBill.Supplier_ID = Fuelcell.Supplier_ID then
      match overlapError intStartDate intEndDate PastBill with
      | some e => some e
      | none => overlapCheck Fuelcell intStartDate intEndDate rest
    else overlapCheck Fuelcell intStartDate intEndDate rest

/-- The cost of one journey (line 249). -/
def JourneyCost (Fuelcell : FuelcellData) (currentJourney : JourneyData) : ℚ :=
  ((currentJourney.Distance : ℚ) * Fuelcell.Distance_rate) +
    ((currentJourney.H2_used : ℚ) * currentJourney.Efficiency * Fuelcell.Energy_rate)

/-- The inner loop of lines 245-252: add the cost of every journey not yet billed. -/
def costJourneys (Fuelcell : FuelcellData) : List JourneyData → ℚ → ℚ
  | [], TotalJourneysCost => TotalJourneysCost
  | currentJourney :: rest, TotalJourneysCost =>
    if !currentJourney.Billed then
      costJourneys Fuelcell rest (TotalJourneysCost + JourneyCost Fuelcell currentJourney)
    else costJourneys Fuelcell rest TotalJourneysCost

/-- The outer loop of lines 238-254 over the relevant components. -/
def costComponents (st : Store) (Fuelcell : FuelcellData) (startDate endDate : String) :
    List CarComponent → ℚ → Except Fault ℚ
  | [], TotalJourneysCost => .ok TotalJourneysCost
  | currentCarComponent :: rest, TotalJourneysCost =>
    match GetAllJourneysbetweendatesforCarComponent st
        currentCarComponent.Car_Component_ID startDate endDate with
    | .error e => .error e
    | .ok releventJourneys =>
      costComponents st Fuelcell startDate endDate rest
        (costJourneys Fuelcell releventJourneys TotalJourneysCost)

/-- The inner loop of lines 270-283: store every journey not yet billed, under its
`Journey_ID`, with `Billed` set. -/
def markJourneys : List JourneyData → Store → Store
  | [], st => st
  | currentJourney :: rest, st =>
    if !currentJourney.Billed then
      markJourneys rest
        (st.put currentJourney.Journey_ID (.journey { currentJourney with Billed := true }))
    else markJourneys rest st

/-- The outer loop of lines 265-285; the journeys of each component are queried again. -/
def markComponents (startDate endDate : String) :
    List CarComponent → Store → Except Fault Unit × Store
  | [], st => (.ok (), st)
  | currentCarComponent :: rest, st =>
    match GetAllJourneysbetweendatesforCarComponent st
        currentCarComponent.Car_Component_ID startDate endDate with
    | .error e => (.error e, st)
    | .ok releventJourneys =>
      markComponents startDate endDate rest (markJourneys releventJourneys st)

/-- The number of days charged at the base rate (line 256):
`float32(intEndDate-intStartDate) + 1`, the subtraction being a machine subtraction. -/
def dayCount (intStartDate intEndDate : Int) : ℚ :=
  (wrapInt64 (intEndDate - intStartDate) : ℚ) + 1

/-- The base charge of line 256. -/
def basecharge (Fuelcell : FuelcellData) (intStartDate intEndDate : Int) : ℚ :=
  dayCount intStartDate intEndDate * Fuelcell.Base_rate

/-- `GenerateBill` (lines 185-287). -/
def GenerateBill (st : Store) (bill_ID fuelcell_ID startDate endDate : String) :
    Except Fault Unit × Store :=
  let PastBills := GetAllBills st
  match GetFuelcell st fuelcell_ID with
  | .error e => (.error e, st)
  | .ok none => (.error .panic, st)
  | .ok (some Fuelcell) =>
    match Atoi endDate with
    | none => (.error (.error .atoi), st)
    | some intEndDate =>
      match Atoi startDate with
      | none => (.error (.error .atoi), st)
      | some intStartDate =>
        match overlapCheck Fuelcell intStartDate intEndDate PastBills with
        | some e => (.error (.error e), st)
        | none =>
          if Fuelcell.Date_Received > intEndDate then
            (.error (.error .fuelcellNotYetReceived), st)
          else if Fuelcell.Date_Returned ≠ 0 ∧ Fuelcell.Date_Returned < intStartDate then
            (.error (.error .fuelcellAlreadyReturned), st)
          else
            match GetAllCarCompForFuelCellBetweenDates st Fuelcell.Fuelcell_ID
                startDate endDate with
            | .error e => (.error e, st)
            | .ok releventCarComponents =>
              match costComponents st Fuelcell startDate endDate releventCarComponents 0 with
              | .error e => (.error e, st)
              | .ok TotalJourneysCost =>
                let TotalCost := basecharge Fuelcell intStartDate intEndDate + TotalJourneysCost
                match CreateNewBill st bill_ID Fuelcell.Supplier_ID Fuelcell.Fuelcell_ID
                    startDate endDate "£" TotalCost with
                | (.error e, st1) => (.error e, st1)
                | (.ok (), st1) => markComponents startDate endDate releventCarComponents st1

/-! ## The fixture -/

/-- The documents written by `InitLedger` (lines 77-170), in the order written. -/
def initialAssets : List Asset :=
  [ .car { Car_ID := "Car1", Date_of_manufacture := "20200123", Misc := "the first test car" },
    .car { Car_ID := "Car2", Date_of_manufacture := "20210123",
           Misc := "the first car to swap cells" },
    .car { Car_ID := "Car3", Date_of_manufacture := "20220123",
           Misc := "the first loaned out car" },
    .carComponent { Car_Component_ID := "Component1", Car_ID := "Car1",
                    Fuelcell_ID := "FuelCell1", Date_added := 20200123, Date_removed := 0 },
    .carComponent { Car_Component_ID := "Component2", Car_ID := "Car2",
                    Fuelcell_ID := "FuelCell2", Date_added := 20210123,
                    Date_removed := 20210623 },
    .carComponent { Car_Component_ID := "Component3", Car_ID := "Car3",
                    Fuelcell_ID := "FuelCell2", Date_added := 20210623, Date_removed := 0 },
    .carComponent { Car_Component_ID := "Component4", Car_ID := "Car2",
                    Fuelcell_ID := "FuelCell3", Date_added := 20210623, Date_removed := 0 },
    .supplier { Supplier_ID := "Supplier1", Supplier_name := "Hydrogen1",
                Misc := "Non preferred provider" },
    .supplier { Supplier_ID := "Supplier2", Supplier_name := "EfficentCells",
                Misc := "preferred provider" },
    .fuelcell { Fuelcell_ID := "FuelCell1", Supplier_ID := "Supplier1", Base_rate := 1,
                Distance_rate := 2 / 10, Energy_rate := 1, Currency := "Pounds",
                Date_Received := 20200122, Date_Returned := 0,
                Misc := "Test cell not for production" },
    .fuelcell { Fuelcell_ID := "FuelCell2", Supplier_ID := "Supplier2", Base_rate := 5 / 10,
                Distance_rate := 1 / 10, Energy_rate := 1, Currency := "Pounds",
                Date_Received := 20210122, Date_Returned := 0, Misc := "" },
    .fuelcell { Fuelcell_ID := "FuelCell3", Supplier_ID := "Supplier2", Base_rate := 8 / 10,
                Distance_rate := 2 / 10, Energy_rate := 1, Currency := "Pounds",
                Date_Received := 20210622, Date_Returned := 0, Misc := "" },
    .journey { Journey_ID := "Journey1", Car_ID := "Car1", Car_Component_ID := "Component1",
               Odo_start := 0, Distance := 500, H2_used := 100, Efficiency := 3 / 10,
               Journey_date := 20200123, Billed := false, Misc := "" },
    .journey { Journey_ID := "Journey2", Car_ID := "Car1", Car_Component_ID := "Component1",
               Odo_start := 500, Distance := 1000, H2_used := 150, Efficiency := 5 / 10,
               Journey_date := 20200127, Billed := false, Misc := "" },
    .journey { Journey_ID := "Journey3", Car_ID := "Car2", Car_Component_ID := "Component2",
               Odo_start := 0, Distance := 500, H2_used := 100, Efficiency := 3 / 10,
               Journey_date := 20210127, Billed := false, Misc := "" },
    .journey { Journey_ID := "Journey4", Car_ID := "Car3", Car_Component_ID := "Component3",
               Odo_start := 0, Distance := 500, H2_used := 100, Efficiency := 3 / 10,
               Journey_date := 20210627, Billed := false, Misc := "" },
    .journey { Journey_ID := "Journey5", Car_ID := "Car2", Car_Component_ID := "Component4",
               Odo_start := 500, Distance := 500, H2_used := 100, Efficiency := 3 / 10,
               Journey_date := 20210627, Billed := false, Misc := "" },
    .journey { Journey_ID := "Journey6", Car_ID := "Car1", Car_Component_ID := "Component1",
               Odo_start := 10000, Distance := 500, H2_used := 100, Efficiency := 3 / 10,
               Journey_date := 20210627, Billed := false, Misc := "" } ]

/-- `InitLedger` (lines 76-184): every fixture document is put under its own ID; the
list of bills is empty. -/
def InitLedger (st : Store) : Except Fault Unit × Store :=
  (.ok (), initialAssets.foldl (fun s asset => s.put asset.ownID asset) st)

/-- `ReadJourney` (lines 758-774): the document under the key, decoded into a `JourneyData`;
a document of another type fills the fields whose JSON names it shares. -/
def ReadJourney (st : Store) (id : String) : Except Fault JourneyData :=
  match st.get id with
  | none => .error (.error .assetMissing)
  | some (.journey j) => .ok j
  | some (.car c) =>
    .ok { Journey_ID := "", Car_ID := c.Car_ID, Car_Component_ID := "", Odo_start := 0,
          Distance := 0, H2_used := 0, Efficiency := 0, Journey_date := 0, Billed := false,
          Misc := c.Misc }
  | some (.carComponent c) =>
    .ok { Journey_ID := "", Car_ID := c.Car_ID, Car_Component_ID := c.Car_Component_ID,
          Odo_start := 0, Distance := 0, H2_used := 0, Efficiency := 0, Journey_date := 0,
          Billed := false, Misc := "" }
  | some (.supplier x) =>
    .ok { Journey_ID := "", Car_ID := "", Car_Component_ID := "", Odo_start := 0,
          Distance := 0, H2_used := 0, Efficiency := 0, Journey_date := 0, Billed := false,
          Misc := x.Misc }
  | some (.fuelcell f) =>
    .ok { Journey_ID := "", Car_ID := "", Car_Component_ID := "", Odo_start := 0,
          Distance := 0, H2_used := 0, Efficiency := 0, Journey_date := 0, Billed := false,
          Misc := f.Misc }
  | some (.bill _) =>
    .ok { Journey_ID := "", Car_ID := "", Car_Component_ID := "", Odo_start := 0,
          Distance := 0, H2_used := 0, Efficiency := 0, Journey_date := 0, Billed := false,
          Misc := "" }

/-! ## Vocabulary of the properties -/

/-- The four overlap tests of a candidate window `[s, e]` against a window `[f, t]`. -/
def overlaps (s e f t : Int) : Prop :=
  (s < f ∧ f < e) ∨ (s ≤ t ∧ t ≤ e) ∨ (f < s ∧ s < t) ∨ (f ≤ e ∧ e ≤ t)

instance (s e f t : Int) : Decidable (overlaps s e f t) := by
  unfold overlaps; infer_instance

/-- The components of a fuel cell that pass the test of line 346, in query order. -/
def relevantComponents (st : Store) (FuelcellID : String) (s e : Int) : List CarComponent :=
  (queryCarComponents st FuelcellID).filter (componentInWindow s e)

/-- The journeys of a component that pass the test of line 379, in query order. -/
def relevantJourneys (st : Store) (Car_Component_ID : String) (s e : Int) : List JourneyData :=
  (queryJourneys st Car_Component_ID).filter (journeyInWindow s e)

/-- The journeys whose cost the costing loop adds: for every relevant component in turn, its
journeys inside the window that are not yet billed. -/
def chargedJourneys (st : Store) (comps : List CarComponent) (s e : Int) : List JourneyData :=
  comps.flatMap fun c =>
    (relevantJourneys st c.Car_Component_ID s e).filter fun j => !j.Billed

/-- The fault with which the costing loop stops: that of the first component whose ID, pasted
into the selector of line 354, does not give the equality selector; `none` when there is no
such component. -/
def journeyQueryFault : List CarComponent → Option Fault
  | [] => none
  | c :: rest =>
    match pastedKind c.Car_Component_ID with
    | .plain => journeyQueryFault rest
    | .malformed => some (.error .query)
    | .other => some .unmodelled

/-- The marking loop with the dates parsed. -/
def markAll (s e : Int) : List CarComponent → Store → Store
  | [], st => st
  | c :: rest, st =>
    markAll s e rest (markJourneys (relevantJourneys st c.Car_Component_ID s e) st)

/-- The bill that a successful `GenerateBill` hands to `PutState`. -/
def issuedBill (st : Store) (F : FuelcellData) (bill_ID : String) (s e : Int) : Bill :=
  { Bill_ID := bill_ID, Supplier_ID := F.Supplier_ID, Fuelcell_ID := F.Fuelcell_ID,
    Date_from := s, Date_to := e, Currency := "£",
    Amount := basecharge F s e +
      ((chargedJourneys st (relevantComponents st F.Fuelcell_ID s e) s e).map
        (JourneyCost F)).sum }

/-- The world state after `InitLedger` has run on the empty store. -/
def fixture : Store := (InitLedger Store.empty).2

/-- The fixture after FuelCell2 has been billed for January 2021. -/
def fixtureBilled : Store :=
  (GenerateBill fixture "Bill1" "FuelCell2" "20210101" "20210131").2

/-- The second fuel cell of the fixture. -/
def fuelCell2 : FuelcellData :=
  { Fuelcell_ID := "FuelCell2", Supplier_ID := "Supplier2", Base_rate := 5 / 10,
    Distance_rate := 1 / 10, Energy_rate := 1, Currency := "Pounds",
    Date_Received := 20210122, Date_Returned := 0, Misc := "" }

/-- The stored bills with the keys they stand under, in query order. -/
def storedBills (st : Store) : List (String × Bill) :=
  st.entries.filterMap fun kv =>
    match kv.2 with
    | .bill b => some (kv.1, b)
    | _ => none

/-- The no-overlap invariant: no two bills of one supplier, stored under different keys,
satisfy any of the four overlap tests. -/
def consistent (st : Store) : Prop :=
  ∀ x ∈ storedBills st, ∀ y ∈ storedBills st, x.1 ≠ y.1 →
    x.2.Supplier_ID = y.2.Supplier_ID →
      ¬ overlaps x.2.Date_from x.2.Date_to y.2.Date_from y.2.Date_to

instance (st : Store) : Decidable (consistent st) := by
  unfold consistent; infer_instance

/-- A journey document with its `Billed` flag set; any other document unchanged. -/
def markBilled : Asset → Asset
  | .journey j => .journey { j with Billed := true }
  | a => a

/-- Every document stands under the key equal to its own ID field. -/
def keyedByOwnID (st : Store) : Prop :=
  ∀ kv ∈ st.entries, kv.1 = kv.2.ownID

instance (st : Store) : Decidable (keyedByOwnID st) := by
  unfold keyedByOwnID; infer_instance

/-- Is the document a journey? -/
def Asset.isJourney : Asset → Bool
  | .journey _ => true
  | _ => false

/-- Every journey document stands under the key equal to its `Journey_ID`. -/
def journeysKeyed (st : Store) : Prop :=
  ∀ kv ∈ st.entries, kv.2.isJourney = true → kv.1 = kv.2.ownID

instance (st : Store) : Decidable (journeysKeyed st) := by
  unfold journeysKeyed; infer_instance

/-- The store `cur` differs from `st` at most in that journeys of `st` have had their
`Billed` flag set. -/
def marksOnly (st cur : Store) : Prop :=
  ∀ k, cur.get k = st.get k ∨ cur.get k = (st.get k).map markBilled

/-- The arguments of one call of `GenerateBill`. -/
structure BillRequest where
  bill_ID : String
  fuelcell_ID : String
  startDate : String
  endDate : String

/-- The store a request leaves behind. -/
def BillRequest.after (st : Store) (r : BillRequest) : Store :=
  (GenerateBill st r.bill_ID r.fuelcell_ID r.startDate r.endDate).2

/-- The journeys whose cost enters the amount of the bill stored by a request: those added
by the costing loop when the call succeeds, none when it fails. -/
def chargedIn (st : Store) (r : BillRequest) : List JourneyData :=
  match GetFuelcell st r.fuelcell_ID, Atoi r.startDate, Atoi r.endDate,
      (GenerateBill st r.bill_ID r.fuelcell_ID r.startDate r.endDate).1 with
  | .ok (some F), some s, some e, .ok _ =>
    chargedJourneys st (relevantComponents st F.Fuelcell_ID s e) s e
  | _, _, _, _ => []

/-- The journeys charged by each request of a sequence run from a store, in order. -/
def chargeLog : Store → List BillRequest → List JourneyData
  | _, [] => []
  | st, r :: rest => chargedIn st r ++ chargeLog (r.after st) rest

/-- The third journey of the fixture once it has been billed. -/
def journey3Billed : JourneyData :=
  { Journey_ID := "Journey3", Car_ID := "Car2", Car_Component_ID := "Component2",
    Odo_start := 0, Distance := 500, H2_used := 100, Efficiency := 3 / 10,
    Journey_date := 20210127, Billed := true, Misc := "" }

/-- A billed journey standing under its own ID. -/
def paidJourney : JourneyData :=
  { Journey_ID := "Journey7", Car_ID := "Car1", Car_Component_ID := "Component1",
    Odo_start := 0, Distance := 1, H2_used := 1, Efficiency := 1,
    Journey_date := 20200201, Billed := true, Misc := "" }

/-- An unbilled journey of Component2 that carries the ID of `paidJourney`. -/
def strayJourney : JourneyData :=
  { Journey_ID := "Journey7", Car_ID := "Car2", Car_Component_ID := "Component2",
    Odo_start := 0, Distance := 999, H2_used := 1, Efficiency := 1,
    Journey_date := 20210127, Billed := false, Misc := "" }

/-- The fixture with `paidJourney` under its own ID and `strayJourney` under another key. -/
def strayStore : Store :=
  (fixture.put "Journey7" (.journey paidJourney)).put "Stray" (.journey strayJourney)

/-- The first fuel cell of the fixture. -/
def fuelCell1 : FuelcellData :=
  { Fuelcell_ID := "FuelCell1", Supplier_ID := "Supplier1", Base_rate := 1,
    Distance_rate := 2 / 10, Energy_rate := 1, Currency := "Pounds",
    Date_Received := 20200122, Date_Returned := 0, Misc := "Test cell not for production" }

/-- The second component of the fixture. -/
def component2 : CarComponent :=
  { Car_Component_ID := "Component2", Car_ID := "Car2", Fuelcell_ID := "FuelCell2",
    Date_added := 20210123, Date_removed := 20210623 }

/-! ## Calendar dates, as the properties word them -/

/-- Is the year a leap year of the Gregorian calendar? -/
def isLeapYear (y : Int) : Bool :=
  (y % 4 = 0 ∧ y % 100 ≠ 0) ∨ y % 400 = 0

/-- The number of days of a month. -/
def daysInMonth (y m : Int) : Int :=
  if m = 2 then (if isLeapYear y then 29 else 28)
  else if m = 4 ∨ m = 6 ∨ m = 9 ∨ m = 11 then 30
  else 31

/-- The year encoded by an integer `YYYYMMDD`. -/
def dateYear (d : Int) : Int := d / 10000

/-- The month encoded by an integer `YYYYMMDD`. -/
def dateMonth (d : Int) : Int := d / 100 % 100

/-- The day encoded by an integer `YYYYMMDD`. -/
def dateDay (d : Int) : Int := d % 100

/-- An 8-digit integer that encodes a date of the calendar. -/
def validDate (d : Int) : Prop :=
  1000 ≤ dateYear d ∧ dateYear d ≤ 9999 ∧ 1 ≤ dateMonth d ∧ dateMonth d ≤ 12 ∧
    1 ≤ dateDay d ∧ dateDay d ≤ daysInMonth (dateYear d) (dateMonth d)

instance (d : Int) : Decidable (validDate d) := by
  unfold validDate; infer_instance

/-- The days of the year that precede the first of a month. -/
def daysBeforeMonth (y m : Int) : Int :=
  ((List.range (m - 1).toNat).map fun i => daysInMonth y (i + 1)).sum

/-- The days that precede the first of January of a year, counted from year 0. -/
def daysBeforeYear (y : Int) : Int :=
  365 * y + (y + 3) / 4 - (y + 99) / 100 + (y + 399) / 400

/-- The serial number of a date: the days that precede it, counted from year 0. -/
def dayNumber (d : Int) : Int :=
  daysBeforeYear (dateYear d) + daysBeforeMonth (dateYear d) (dateMonth d) + dateDay d

/-- The number of calendar days in the window `[s, e]`, both boundary dates included. -/
def calendarDays (s e : Int) : Int :=
  dayNumber e - dayNumber s + 1

/-- The errors returned by the in-service check of `GenerateBill` (lines 224-229). -/
def Err.isNotInService : Err → Bool
  | .fuelcellNotYetReceived | .fuelcellAlreadyReturned => true
  | _ => false

/-- An id that needs no escaping inside a JSON string literal: it holds no double quote
(code 34), no backslash (code 92) and no control character (code below 32). -/
def plainID (id : String) : Prop :=
  ∀ c ∈ id.toList, c.toNat ≠ 34 ∧ c.toNat ≠ 92 ∧ 32 ≤ c.toNat

instance (id : String) : Decidable (plainID id) := by
  unfold plainID; infer_instance

/-- The id `Fuel"Cell`, with a double quote in the middle. -/
def quotedID : String :=
  "Fuel" ++ String.singleton (Char.ofNat 34) ++ "Cell"

/-! ## The loops in closed form -/

theorem carComponentLoop_eq {startDate endDate : String} {s e : Int}
    (hs : Atoi startDate = some s) (he : Atoi endDate = some e) :
    ∀ (l acc : List CarComponent),
      carComponentLoop startDate endDate l acc = .ok (acc ++ l.filter (componentInWindow s e))
  | [], acc => by simp [carComponentLoop]
  | c :: rest, acc => by
    by_cases h : componentInWindow s e c = true
    · simp [carComponentLoop, hs, he, h, carComponentLoop_eq hs he rest]
    · simp [carComponentLoop, hs, he, h, carComponentLoop_eq hs he rest]

theorem journeyLoop_eq {startDate endDate : String} {s e : Int}
    (hs : Atoi startDate = some s) (he : Atoi endDate = some e) :
    ∀ (l acc : List JourneyData),
      journeyLoop startDate endDate l acc = .ok (acc ++ l.filter (journeyInWindow s e))
  | [], acc => by simp [journeyLoop]
  | c :: rest, acc => by
    by_cases h : journeyInWindow s e c = true
    · simp [journeyLoop, hs, he, h, journeyLoop_eq hs he rest]
    · simp [journeyLoop, hs, he, h, journeyLoop_eq hs he rest]

theorem scanLiteral_plain :
    ∀ l : List Nat, (∀ c ∈ l, c ≠ 34 ∧ c ≠ 92 ∧ 32 ≤ c) →
      scanLiteral (l ++ [34, 125, 125]) = .plain
  | [], _ => by simp [scanLiteral]
  | c :: rest, h => by
    obtain ⟨h1, h2, h3⟩ := h c (List.mem_cons_self _ _)
    have h4 : ¬ c < 32 := by omega
    have ih := scanLiteral_plain rest (fun x hx => h x (List.mem_cons_of_mem _ hx))
    simp only [List.cons_append, scanLiteral, h1, h2, h4, if_false]
    exact ih

theorem pastedKind_of_plainID {id : String} (h : plainID id) : pastedKind id = .plain := by
  unfold pastedKind
  apply scanLiteral_plain
  intro c hc
  obtain ⟨x, hx, rfl⟩ := List.mem_map.1 hc
  exact h x hx

theorem journeyQueryFault_of_plain :
    ∀ comps : List CarComponent, (∀ c ∈ comps, plainID c.Car_Component_ID) →
      journeyQueryFault comps = none
  | [], _ => rfl
  | c :: rest, h => by
    have hp := pastedKind_of_plainID (h c (List.mem_cons_self _ _))
    simp only [journeyQueryFault, hp]
    exact journeyQueryFault_of_plain rest (fun x hx => h x (List.mem_cons_of_mem _ hx))

theorem queryResult_plain {α : Type} {id : String} (h : pastedKind id = .plain)
    (docs : List α) : queryResult id docs = .ok docs := by
  simp [queryResult, h]

theorem getComponents_eq (st : Store) {fid : String} (hp : pastedKind fid = .plain)
    {startDate endDate : String} {s e : Int}
    (hs : Atoi startDate = some s) (he : Atoi endDate = some e) :
    GetAllCarCompForFuelCellBetweenDates st fid startDate endDate
      = .ok (relevantComponents st fid s e) := by
  simp [GetAllCarCompForFuelCellBetweenDates, queryResult_plain hp, relevantComponents,
    carComponentLoop_eq hs he]

theorem getJourneys_eq (st : Store) {cid : String} (hp : pastedKind cid = .plain)
    {startDate endDate : String} {s e : Int}
    (hs : Atoi startDate = some s) (he : Atoi endDate = some e) :
    GetAllJourneysbetweendatesforCarComponent st cid startDate endDate
      = .ok (relevantJourneys st cid s e) := by
  simp [GetAllJourneysbetweendatesforCarComponent, queryResult_plain hp, relevantJourneys,
    journeyLoop_eq hs he]

theorem mem_queryFuelcells {st : Store} {id : String} {F : FuelcellData}
    (h : F ∈ queryFuelcells st id) : F.Fuelcell_ID = id := by
  unfold queryFuelcells at h
  rw [List.mem_filterMap] at h
  obtain ⟨⟨k, a⟩, _, hval⟩ := h
  cases a <;> simp at hval
  obtain ⟨hc, rfl⟩ := hval
  exact hc

theorem foldl_last_mem {α : Type} :
    ∀ (l : List α) (init : Option α) (x : α),
      l.foldl (fun _ a => some a) init = some x → x ∈ l ∨ init = some x
  | [], init, x, h => Or.inr h
  | a :: rest, init, x, h => by
    rcases foldl_last_mem rest (some a) x h with h1 | h1
    · exact Or.inl (List.mem_cons_of_mem _ h1)
    · simp only [Option.some.injEq] at h1
      exact Or.inl (h1 ▸ List.mem_cons_self _ _)

theorem GetFuelcell_ok {st : Store} {id : String} {F : FuelcellData}
    (h : GetFuelcell st id = .ok (some F)) : pastedKind id = .plain ∧ F.Fuelcell_ID = id := by
  unfold GetFuelcell queryResult at h
  cases hk : pastedKind id <;> rw [hk] at h <;> simp at h
  refine ⟨rfl, ?_⟩
  rcases foldl_last_mem _ _ _ h with h1 | h1
  · exact mem_queryFuelcells h1
  · cases h1

theorem journeyQueryFault_cons_none {c : CarComponent} {rest : List CarComponent}
    (h : journeyQueryFault (c :: rest) = none) :
    pastedKind c.Car_Component_ID = .plain ∧ journeyQueryFault rest = none := by
  unfold journeyQueryFault at h
  cases hk : pastedKind c.Car_Component_ID <;> rw [hk] at h <;> simp at h
  exact ⟨rfl, h⟩

theorem journeyQueryFault_eq_some {comps : List CarComponent} {f : Fault}
    (h : journeyQueryFault comps = some f) : f = .error .query ∨ f = .unmodelled := by
  induction comps with
  | nil => simp [journeyQueryFault] at h
  | cons c rest ih =>
    unfold journeyQueryFault at h
    cases hk : pastedKind c.Car_Component_ID <;> rw [hk] at h <;> simp at h
    · exact ih h
    · exact Or.inl h.symm
    · exact Or.inr h.symm

theorem overlapError_eq_none_iff (s e : Int) (B : Bill) :
    overlapError s e B = none ↔ ¬ overlaps s e B.Date_from B.Date_to := by
  unfold overlapError overlaps
  split_ifs <;> simp_all

theorem overlapError_isOverlap {s e : Int} {B : Bill} {err : Err}
    (h : overlapError s e B = some err) : err.isOverlap = true := by
  unfold overlapError at h
  split_ifs at h <;> simp_all <;> subst h <;> rfl

theorem overlapCheck_eq_none_iff (F : FuelcellData) (s e : Int) :
    ∀ bills : List Bill, overlapCheck F s e bills = none ↔
      ∀ B ∈ bills, B.Supplier_ID = F.Supplier_ID → ¬ overlaps s e B.Date_from B.Date_to
  | [] => by simp [overlapCheck]
  | B :: rest => by
    have ih := overlapCheck_eq_none_iff F s e rest
    by_cases hsup : B.Supplier_ID = F.Supplier_ID
    · cases hov : overlapError s e B with
      | none =>
        have := (overlapError_eq_none_iff s e B).1 hov
        simp [overlapCheck, hsup, hov, ih, this]
      | some err =>
        have : ¬ ¬ overlaps s e B.Date_from B.Date_to := by
          intro hn
          have := (overlapError_eq_none_iff s e B).2 hn
          simp [hov] at this
        simp [overlapCheck, hsup, hov]
        exact fun hn => absurd hn this
    · simp [overlapCheck, hsup, ih]

theorem overlapCheck_isOverlap (F : FuelcellData) (s e : Int) :
    ∀ (bills : List Bill) (err : Err), overlapCheck F s e bills = some err → err.isOverlap = true
  | [], err, h => by simp [overlapCheck] at h
  | B :: rest, err, h => by
    by_cases hsup : B.Supplier_ID = F.Supplier_ID
    · cases hov : overlapError s e B with
      | none =>
        simp [overlapCheck, hsup, hov] at h
        exact overlapCheck_isOverlap F s e rest err h
      | some err2 =>
        simp [overlapCheck, hsup, hov] at h
        subst h
        exact overlapError_isOverlap hov
    · simp [overlapCheck, hsup] at h
      exact overlapCheck_isOverlap F s e rest err h

theorem costJourneys_eq (F : FuelcellData) :
    ∀ (js : List JourneyData) (total : ℚ),
      costJourneys F js total
        = total + ((js.filter fun j => !j.Billed).map (JourneyCost F)).sum
  | [], total => by simp [costJourneys]
  | j :: rest, total => by
    cases hb : j.Billed
    · simp [costJourneys, hb, costJourneys_eq F rest, add_assoc]
    · simp [costJourneys, hb, costJourneys_eq F rest]

theorem journeyQueryFault_getD (comps : List CarComponent) :
    (journeyQueryFault comps).getD .unmodelled = .error .query ∨
      (journeyQueryFault comps).getD .unmodelled = .unmodelled := by
  cases h : journeyQueryFault comps with
  | none => exact Or.inr rfl
  | some f =>
    rcases journeyQueryFault_eq_some h with h1 | h1
    · exact Or.inl (by simp [h1])
    · exact Or.inr (by simp [h1])

theorem costComponents_eq (st : Store) (F : FuelcellData) {startDate endDate : String}
    {s e : Int} (hs : Atoi startDate = some s) (he : Atoi endDate = some e) :
    ∀ (comps : List CarComponent) (total : ℚ),
      costComponents st F startDate endDate comps total
        = match journeyQueryFault comps with
          | some f => .error f
          | none => .ok (total + ((chargedJourneys st comps s e).map (JourneyCost F)).sum)
  | [], total => by simp [costComponents, chargedJourneys, journeyQueryFault]
  | c :: rest, total => by
    have ih := costComponents_eq st F hs he rest
    cases hk : pastedKind c.Car_Component_ID with
    | plain =>
      simp only [costComponents, getJourneys_eq st hk hs he, ih, journeyQueryFault, hk]
      cases journeyQueryFault rest with
      | some f => rfl
      | none => simp [costJourneys_eq, chargedJourneys, add_assoc]
    | malformed =>
      simp [costComponents, GetAllJourneysbetweendatesforCarComponent, queryResult, hk,
        journeyQueryFault]
    | other =>
      simp [costComponents, GetAllJourneysbetweendatesforCarComponent, queryResult, hk,
        journeyQueryFault]

theorem markComponents_eq {startDate endDate : String} {s e : Int}
    (hs : Atoi startDate = some s) (he : Atoi endDate = some e) :
    ∀ (comps : List CarComponent) (st : Store), journeyQueryFault comps = none →
      markComponents startDate endDate comps st = (.ok (), markAll s e comps st)
  | [], st, _ => by simp [markComponents, markAll]
  | c :: rest, st, hq => by
    obtain ⟨hp, hrest⟩ := journeyQueryFault_cons_none hq
    simp [markComponents, markAll, getJourneys_eq st hp hs he,
      markComponents_eq hs he rest _ hrest]

theorem CreateNewBill_eq (st : Store) (b sup fid cur : String) (amount : ℚ)
    {startDate endDate : String} {s e : Int}
    (hs : Atoi startDate = some s) (he : Atoi endDate = some e) :
    CreateNewBill st b sup fid startDate endDate cur amount =
      if AssetExists st b then (.error (.error .billExists), st)
      else if !AssetExists st sup then (.error (.error .supplierMissing), st)
      else if !AssetExists st fid then (.error (.error .fuelcellMissing), st)
      else (.ok (), st.put b (.bill
        { Bill_ID := b, Supplier_ID := sup, Fuelcell_ID := fid, Date_from := s,
          Date_to := e, Currency := cur, Amount := amount })) := by
  simp [CreateNewBill, hs, he]

theorem GenerateBill_eq (st : Store) (bill_ID fuelcell_ID : String) {startDate endDate : String}
    {F : FuelcellData} {s e : Int} (hF : GetFuelcell st fuelcell_ID = .ok (some F))
    (hs : Atoi startDate = some s) (he : Atoi endDate = some e) :
    GenerateBill st bill_ID fuelcell_ID startDate endDate =
      match overlapCheck F s e (GetAllBills st) with
      | some err => (.error (.error err), st)
      | none =>
        if F.Date_Received > e then (.error (.error .fuelcellNotYetReceived), st)
        else if F.Date_Returned ≠ 0 ∧ F.Date_Returned < s then
          (.error (.error .fuelcellAlreadyReturned), st)
        else if (journeyQueryFault (relevantComponents st F.Fuelcell_ID s e)).isSome then
          (.error ((journeyQueryFault (relevantComponents st F.Fuelcell_ID s e)).getD
            .unmodelled), st)
        else if AssetExists st bill_ID then (.error (.error .billExists), st)
        else if !AssetExists st F.Supplier_ID then (.error (.error .supplierMissing), st)
        else if !AssetExists st F.Fuelcell_ID then (.error (.error .fuelcellMissing), st)
        else
          (.ok (), markAll s e (relevantComponents st F.Fuelcell_ID s e)
            (st.put bill_ID (.bill (issuedBill st F bill_ID s e)))) := by
  obtain ⟨hplain, hid⟩ := GetFuelcell_ok hF
  have hplainF : pastedKind F.Fuelcell_ID = .plain := hid ▸ hplain
  clear hid hplain
  simp only [GenerateBill, hF, hs, he]
  cases overlapCheck F s e (GetAllBills st) with
  | some err => rfl
  | none =>
    simp only [getComponents_eq st hplainF hs he, costComponents_eq st F hs he, zero_add,
      CreateNewBill_eq st _ _ _ _ _ hs he]
    cases hq : journeyQueryFault (relevantComponents st F.Fuelcell_ID s e) with
    | some f => split_ifs <;> simp_all
    | none => split_ifs <;> simp_all [markComponents_eq hs he _ _ hq, issuedBill]

/-! ## C1: the overlap check -/

/-- C1: with an existing fuel cell `F` and dates parsing to `s` and `e`, `GenerateBill` returns
one of the four overlap errors exactly when some stored bill of `F`'s supplier satisfies one of
the four overlap tests against `[s, e]`; that error takes precedence over the in-service check,
and the store is left as it was. -/
theorem C1_overlap_rejection (st : Store) (bill_ID fuelcell_ID startDate endDate : String)
    (F : FuelcellData) (s e : Int) (hF : GetFuelcell st fuelcell_ID = .ok (some F))
    (hs : Atoi startDate = some s) (he : Atoi endDate = some e) :
    ((∃ err, err.isOverlap = true ∧
        (GenerateBill st bill_ID fuelcell_ID startDate endDate).1 = .error (.error err)) ↔
      ∃ B ∈ GetAllBills st, B.Supplier_ID = F.Supplier_ID ∧
        ((s < B.Date_from ∧ B.Date_from < e) ∨ (s ≤ B.Date_to ∧ B.Date_to ≤ e) ∨
          (B.Date_from < s ∧ s < B.Date_to) ∨ (B.Date_from ≤ e ∧ e ≤ B.Date_to))) ∧
    ((∃ B ∈ GetAllBills st, B.Supplier_ID = F.Supplier_ID ∧
        ((s < B.Date_from ∧ B.Date_from < e) ∨ (s ≤ B.Date_to ∧ B.Date_to ≤ e) ∨
          (B.Date_from < s ∧ s < B.Date_to) ∨ (B.Date_from ≤ e ∧ e ≤ B.Date_to))) →
      (GenerateBill st bill_ID fuelcell_ID startDate endDate).2 = st) := by
  have key := GenerateBill_eq st bill_ID fuelcell_ID hF hs he
  have hnone := overlapCheck_eq_none_iff F s e (GetAllBills st)
  have hsome := overlapCheck_isOverlap F s e (GetAllBills st)
  cases hov : overlapCheck F s e (GetAllBills st) with
  | some err =>
    rw [hov] at key
    have hex : ∃ B ∈ GetAllBills st, B.Supplier_ID = F.Supplier_ID ∧
        overlaps s e B.Date_from B.Date_to := by
      by_contra hcon
      have : overlapCheck F s e (GetAllBills st) = none := by
        rw [hnone]
        intro B hB hsup hovl
        exact hcon ⟨B, hB, hsup, hovl⟩
      rw [hov] at this
      cases this
    refine ⟨⟨fun _ => hex, fun _ => ⟨err, hsome err hov, by rw [key]⟩⟩, fun _ => by rw [key]⟩
  | none =>
    rw [hov] at key
    have hno : ¬ ∃ B ∈ GetAllBills st, B.Supplier_ID = F.Supplier_ID ∧
        overlaps s e B.Date_from B.Date_to := by
      rintro ⟨B, hB, hsup, hovl⟩
      exact (hnone.1 hov) B hB hsup hovl
    refine ⟨⟨?_, fun h => absurd h hno⟩, fun h => absurd h hno⟩
    rintro ⟨err, herr, hres⟩
    exfalso
    rw [key] at hres
    simp only at hres
    split_ifs at hres <;>
      first
      | (simp at hres; subst hres; simp [Err.isOverlap] at herr)
      | (rcases journeyQueryFault_getD (relevantComponents st F.Fuelcell_ID s e) with h | h
         · rw [h] at hres; simp at hres; subst hres; simp [Err.isOverlap] at herr
         · rw [h] at hres; simp at hres)

theorem C1_overlap_rejection_witness :
    GetFuelcell fixtureBilled "FuelCell2" = .ok (some fuelCell2) ∧
    Atoi "20210115" = some 20210115 ∧ Atoi "20210215" = some 20210215 ∧
    (∃ B ∈ GetAllBills fixtureBilled, B.Supplier_ID = fuelCell2.Supplier_ID ∧
      B.Date_from = 20210101 ∧ B.Date_to = 20210131) ∧
    (GenerateBill fixtureBilled "Bill2" "FuelCell2" "20210115" "20210215").1
      = .error (.error .encapsulatesEnd) ∧
    (GenerateBill fixtureBilled "Bill2" "FuelCell2" "20210115" "20210215").2 = fixtureBilled :=
  ⟨rfl, by decide, by decide, by decide, rfl,
    (C1_overlap_rejection fixtureBilled "Bill2" "FuelCell2" "20210115" "20210215" fuelCell2
      20210115 20210215 rfl (by decide) (by decide)).2 (by decide)⟩

/-! ## Lemmas on the world state -/

theorem upsert_of_not_mem (key : String) (a : Asset) :
    ∀ l : List (String × Asset), key ∉ l.map Prod.fst → upsert key a l = l ++ [(key, a)]
  | [], _ => rfl
  | (k, v) :: rest, h => by
    simp only [List.map_cons, List.mem_cons, not_or] at h
    have hk : ¬ k = key := fun e => h.1 e.symm
    simp [upsert, hk, upsert_of_not_mem key a rest h.2]

theorem upsert_eq_map (key : String) (a : Asset) :
    ∀ l : List (String × Asset), key ∈ l.map Prod.fst → (l.map Prod.fst).Nodup →
      upsert key a l = l.map fun kv => if kv.1 = key then (key, a) else kv
  | [], h, _ => by simp at h
  | (k, v) :: rest, h, hn => by
    simp only [List.map_cons, List.nodup_cons] at hn
    by_cases hk : k = key
    · subst hk
      have : ∀ kv ∈ rest, ¬ kv.1 = k := by
        intro kv hkv e
        exact hn.1 (e ▸ List.mem_map_of_mem Prod.fst hkv)
      have hrest : rest.map (fun kv => if kv.1 = k then (k, a) else kv) = rest := by
        conv_rhs => rw [← List.map_id rest]
        apply List.map_congr_left
        intro kv hkv
        simp [this kv hkv]
      simp [upsert, hrest]
    · have h' : key ∈ rest.map Prod.fst := by
        simp only [List.map_cons, List.mem_cons] at h
        rcases h with h | h
        · exact absurd h.symm hk
        · exact h
      simp [upsert, hk, upsert_eq_map key a rest h' hn.2]

theorem mem_upsert {key : String} {a : Asset} {x : String × Asset} :
    ∀ {l : List (String × Asset)}, x ∈ upsert key a l → x = (key, a) ∨ x ∈ l
  | [], h => by simp [upsert] at h; exact Or.inl h
  | (k, v) :: rest, h => by
    by_cases hk : k = key
    · simp only [upsert, hk, if_true, List.mem_cons] at h
      rcases h with h | h
      · exact Or.inl h
      · exact Or.inr (List.mem_cons_of_mem _ h)
    · simp only [upsert, hk, if_false, List.mem_cons] at h
      rcases h with h | h
      · exact Or.inr (h ▸ List.mem_cons_self _ _)
      · rcases mem_upsert h with h | h
        · exact Or.inl h
        · exact Or.inr (List.mem_cons_of_mem _ h)

theorem lookup_upsert (key : String) (a : Asset) (k : String) :
    ∀ l : List (String × Asset),
      lookupKey k (upsert key a l) = if k = key then some a else lookupKey k l
  | [] => by
    by_cases h : k = key
    · simp [upsert, lookupKey, h]
    · have h2 : ¬ key = k := fun e => h e.symm
      simp [upsert, lookupKey, h, h2]
  | (k', v) :: rest => by
    by_cases hk : k' = key
    · subst hk
      by_cases h : k = k'
      · simp [upsert, lookupKey, h]
      · have h2 : ¬ k' = k := fun e => h e.symm
        simp [upsert, lookupKey, h, h2]
    · by_cases h : k' = k
      · have : ¬ k = key := fun e => hk (h.trans e)
        simp [upsert, hk, lookupKey, h, this]
      · simp [upsert, hk, lookupKey, h, lookup_upsert key a k rest]

theorem Store.get_put (st : Store) (key : String) (a : Asset) (k : String) :
    (st.put key a).get k = if k = key then some a else st.get k :=
  lookup_upsert key a k st.entries

theorem lookup_eq_none_iff_not_mem (k : String) :
    ∀ l : List (String × Asset), lookupKey k l = none ↔ k ∉ l.map Prod.fst
  | [] => by simp [lookupKey]
  | (k', v) :: rest => by
    by_cases h : k' = k
    · simp [lookupKey, h]
    · have h2 : ¬ k = k' := fun e => h e.symm
      simp only [lookupKey, h, if_false, lookup_eq_none_iff_not_mem k rest, List.map_cons,
        List.mem_cons, h2, false_or]

theorem mem_of_lookup {k : String} {a : Asset} :
    ∀ {l : List (String × Asset)}, lookupKey k l = some a → (k, a) ∈ l
  | [], h => by simp [lookupKey] at h
  | (k', v) :: rest, h => by
    by_cases hk : k' = k
    · simp [lookupKey, hk] at h
      simp [hk, h]
    · simp [lookupKey, hk] at h
      exact List.mem_cons_of_mem _ (mem_of_lookup h)

theorem lookup_of_mem {k : String} {a : Asset} :
    ∀ {l : List (String × Asset)}, (l.map Prod.fst).Nodup → (k, a) ∈ l →
      lookupKey k l = some a
  | [], _, h => by simp at h
  | (k', v) :: rest, hn, h => by
    simp only [List.map_cons, List.nodup_cons] at hn
    simp only [List.mem_cons] at h
    rcases h with h | h
    · cases h
      simp [lookupKey]
    · have hk : ¬ k' = k := by
        intro e
        exact hn.1 (e ▸ List.mem_map_of_mem Prod.fst h)
      simp [lookupKey, hk, lookup_of_mem hn.2 h]

theorem Store.mem_entries_iff (st : Store) (k : String) (a : Asset) :
    (k, a) ∈ st.entries ↔ st.get k = some a :=
  ⟨lookup_of_mem st.nodup, mem_of_lookup⟩

theorem AssetExists_eq_false_iff (st : Store) (k : String) :
    AssetExists st k = false ↔ k ∉ st.entries.map Prod.fst := by
  unfold AssetExists Store.get
  rw [← lookup_eq_none_iff_not_mem]
  cases lookupKey k st.entries <;> simp

theorem Store.put_entries_of_new (st : Store) (key : String) (a : Asset)
    (h : AssetExists st key = false) : (st.put key a).entries = st.entries ++ [(key, a)] :=
  upsert_of_not_mem key a st.entries ((AssetExists_eq_false_iff st key).1 h)

/-! ## C2: the no-overlap invariant -/

theorem overlaps_symm {s e f t : Int} (h : overlaps s e f t) : overlaps f t s e := by
  unfold overlaps at *
  omega

theorem GetAllBills_eq_storedBills (st : Store) :
    GetAllBills st = (storedBills st).map Prod.snd := by
  unfold GetAllBills queryBills storedBills
  induction st.entries with
  | nil => rfl
  | cons kv rest ih =>
    obtain ⟨k, a⟩ := kv
    cases a <;> simp [List.filterMap_cons, ih]

theorem storedBills_put_new_bill (st : Store) (key : String) (b : Bill)
    (h : AssetExists st key = false) :
    storedBills (st.put key (.bill b)) = storedBills st ++ [(key, b)] := by
  unfold storedBills
  rw [Store.put_entries_of_new st key _ h, List.filterMap_append]
  rfl

theorem storedBills_put_journey (st : Store) (key : String) (j : JourneyData) :
    ∀ x ∈ storedBills (st.put key (.journey j)), x ∈ storedBills st := by
  intro x hx
  unfold storedBills at *
  rw [List.mem_filterMap] at hx ⊢
  obtain ⟨kv, hkv, hval⟩ := hx
  rcases mem_upsert hkv with h | h
  · subst h
    simp at hval
  · exact ⟨kv, h, hval⟩

theorem consistent_of_subset {st st' : Store}
    (hsub : ∀ x ∈ storedBills st', x ∈ storedBills st) (h : consistent st) :
    consistent st' :=
  fun x hx y hy => h x (hsub x hx) y (hsub y hy)

theorem storedBills_markJourneys :
    ∀ (js : List JourneyData) (st : Store),
      ∀ x ∈ storedBills (markJourneys js st), x ∈ storedBills st
  | [], _, x, hx => hx
  | j :: rest, st, x, hx => by
    cases hb : j.Billed
    · simp only [markJourneys, hb, Bool.not_false, if_true] at hx
      exact storedBills_put_journey st _ _ x (storedBills_markJourneys rest _ x hx)
    · simp only [markJourneys, hb, Bool.not_true, Bool.false_eq_true, if_false] at hx
      exact storedBills_markJourneys rest st x hx

theorem storedBills_markAll (s e : Int) :
    ∀ (comps : List CarComponent) (st : Store),
      ∀ x ∈ storedBills (markAll s e comps st), x ∈ storedBills st
  | [], _, x, hx => hx
  | c :: rest, st, x, hx => by
    simp only [markAll] at hx
    exact storedBills_markJourneys _ st x (storedBills_markAll s e rest _ x hx)

theorem consistent_put_new_bill (st : Store) (key : String) (b : Bill)
    (hnew : AssetExists st key = false) (h : consistent st)
    (hno : ∀ B ∈ GetAllBills st, B.Supplier_ID = b.Supplier_ID →
      ¬ overlaps b.Date_from b.Date_to B.Date_from B.Date_to) :
    consistent (st.put key (.bill b)) := by
  intro x hx y hy hne hsup
  rw [storedBills_put_new_bill st key b hnew, List.mem_append, List.mem_singleton] at hx hy
  rw [GetAllBills_eq_storedBills] at hno
  rcases hx with hx | hx <;> rcases hy with hy | hy
  · exact h x hx y hy hne hsup
  · subst hy
    intro hov
    exact hno x.2 (List.mem_map_of_mem Prod.snd hx) hsup (overlaps_symm hov)
  · subst hx
    exact hno y.2 (List.mem_map_of_mem Prod.snd hy) hsup.symm
  · subst hx; subst hy
    exact absurd rfl hne

theorem CreateJourney_store (st : Store) (Journey_ID Car_ID Car_Component_ID Odo_start Distance
    H2_used : String) (Efficiency : ℚ) (FuelSupplier Date : String) :
    (CreateJourney st Journey_ID Car_ID Car_Component_ID Odo_start Distance H2_used Efficiency
      FuelSupplier Date).2 = st := by
  unfold CreateJourney
  cases AssetExists st Journey_ID <;> simp

theorem GenerateBill_consistent (st : Store) (bill_ID fuelcell_ID startDate endDate : String)
    (h : consistent st) :
    consistent (GenerateBill st bill_ID fuelcell_ID startDate endDate).2 := by
  match hF : GetFuelcell st fuelcell_ID with
  | .error f0 => simpa [GenerateBill, hF] using h
  | .ok none => simpa [GenerateBill, hF] using h
  | .ok (some F) =>
    cases he : Atoi endDate with
    | none => simpa [GenerateBill, hF, he] using h
    | some e =>
      cases hs : Atoi startDate with
      | none => simpa [GenerateBill, hF, he, hs] using h
      | some s =>
        rw [GenerateBill_eq st bill_ID fuelcell_ID hF hs he]
        cases hov : overlapCheck F s e (GetAllBills st) with
        | some err => exact h
        | none =>
          simp only
          split_ifs with h1 h2 hq h3 h4 h5
          · exact h
          · exact h
          · exact h
          · exact h
          · exact h
          · exact h
          · refine consistent_of_subset (storedBills_markAll s e _ _) ?_
            refine consistent_put_new_bill st bill_ID _ (by simpa using h3) h ?_
            intro B hB hsup
            exact (overlapCheck_eq_none_iff F s e _).1 hov B hB hsup

/-- C2 (as amended): `GenerateBill` and `CreateJourney` keep the no-overlap invariant whatever
their arguments and outcome; `CreateNewBill`, which makes no overlap test, keeps it when the
window it is given overlaps no stored bill of the supplier it is given. -/
theorem C2_invariant_preserved (st : Store) (h : consistent st) :
    (∀ bill_ID fuelcell_ID startDate endDate,
      consistent (GenerateBill st bill_ID fuelcell_ID startDate endDate).2) ∧
    (∀ Journey_ID Car_ID Car_Component_ID Odo_start Distance H2_used Efficiency FuelSupplier
        Date,
      consistent (CreateJourney st Journey_ID Car_ID Car_Component_ID Odo_start Distance
        H2_used Efficiency FuelSupplier Date).2) ∧
    (∀ Bill_ID Supplier_ID Fuelcell_ID startDate endDate Currency amount,
      (∀ s e, Atoi startDate = some s → Atoi endDate = some e →
        ∀ B ∈ GetAllBills st, B.Supplier_ID = Supplier_ID →
          ¬ overlaps s e B.Date_from B.Date_to) →
      consistent (CreateNewBill st Bill_ID Supplier_ID Fuelcell_ID startDate endDate
        Currency amount).2) := by
  refine ⟨fun b f sd ed => GenerateBill_consistent st b f sd ed h, ?_, ?_⟩
  · intro a1 a2 a3 a4 a5 a6 a7 a8 a9
    rw [CreateJourney_store]
    exact h
  · intro b sup fid sd ed cur amount hno
    cases he : Atoi ed with
    | none =>
      have : (CreateNewBill st b sup fid sd ed cur amount).2 = st := by
        simp only [CreateNewBill, he]
        split_ifs <;> rfl
      rw [this]; exact h
    | some e =>
      cases hs : Atoi sd with
      | none =>
        have : (CreateNewBill st b sup fid sd ed cur amount).2 = st := by
          simp only [CreateNewBill, he, hs]
          split_ifs <;> rfl
        rw [this]; exact h
      | some s =>
        rw [CreateNewBill_eq st b sup fid cur amount hs he]
        split_ifs with h1 h2 h3
        · exact h
        · exact h
        · exact h
        · exact consistent_put_new_bill st b _ (by simpa using h1) h
            (fun B hB hsup => hno s e hs he B hB hsup)

/-- The amended C2 at the fixture: a second bill for February is stored next to the bill for
January and the invariant still holds. -/
theorem C2_invariant_preserved_witness :
    consistent fixtureBilled ∧
    (GenerateBill fixtureBilled "Bill2" "FuelCell2" "20210201" "20210228").1 = .ok () ∧
    consistent (GenerateBill fixtureBilled "Bill2" "FuelCell2" "20210201" "20210228").2 :=
  ⟨by decide, rfl, (C2_invariant_preserved fixtureBilled (by decide)).1 _ _ _ _⟩

/-- C2 fails for `CreateNewBill`: on a consistent store it stores a second bill of the same
supplier whose window overlaps the first. -/
theorem C2_CreateNewBill_breaks_invariant :
    consistent fixtureBilled ∧
    (CreateNewBill fixtureBilled "Bill2" "Supplier2" "FuelCell2" "20210115" "20210215" "£" 0).1
      = .ok () ∧
    ¬ consistent
      (CreateNewBill fixtureBilled "Bill2" "Supplier2" "FuelCell2" "20210115" "20210215"
        "£" 0).2 :=
  ⟨by decide, rfl, by decide⟩

/-! ## Outcomes of `GenerateBill` -/

theorem GenerateBill_error_store (st : Store) (bill_ID fuelcell_ID startDate endDate : String)
    (f : Fault) (h : (GenerateBill st bill_ID fuelcell_ID startDate endDate).1 = .error f) :
    (GenerateBill st bill_ID fuelcell_ID startDate endDate).2 = st := by
  match hF : GetFuelcell st fuelcell_ID with
  | .error f0 => simp [GenerateBill, hF]
  | .ok none => simp [GenerateBill, hF]
  | .ok (some F) =>
    cases he : Atoi endDate with
    | none => simp [GenerateBill, hF, he]
    | some e =>
      cases hs : Atoi startDate with
      | none => simp [GenerateBill, hF, he, hs]
      | some s =>
        rw [GenerateBill_eq st bill_ID fuelcell_ID hF hs he] at h ⊢
        cases hov : overlapCheck F s e (GetAllBills st) with
        | some err => rfl
        | none =>
          rw [hov] at h
          simp only at h ⊢
          split_ifs at h ⊢ <;> rfl

theorem GenerateBill_ok_parse {st : Store} {bill_ID fuelcell_ID startDate endDate : String}
    (h : (GenerateBill st bill_ID fuelcell_ID startDate endDate).1 = .ok ()) :
    ∃ F s e, GetFuelcell st fuelcell_ID = .ok (some F) ∧ Atoi startDate = some s ∧
      Atoi endDate = some e := by
  match hF : GetFuelcell st fuelcell_ID with
  | .error f0 => simp [GenerateBill, hF] at h
  | .ok none => simp [GenerateBill, hF] at h
  | .ok (some F) =>
    cases he : Atoi endDate with
    | none => simp [GenerateBill, hF, he] at h
    | some e =>
      cases hs : Atoi startDate with
      | none => simp [GenerateBill, hF, he, hs] at h
      | some s => exact ⟨F, s, e, rfl, rfl, rfl⟩

theorem GenerateBill_ok {st : Store} {bill_ID fuelcell_ID startDate endDate : String}
    {F : FuelcellData} {s e : Int} (hF : GetFuelcell st fuelcell_ID = .ok (some F))
    (hs : Atoi startDate = some s) (he : Atoi endDate = some e)
    (h : (GenerateBill st bill_ID fuelcell_ID startDate endDate).1 = .ok ()) :
    overlapCheck F s e (GetAllBills st) = none ∧ ¬ F.Date_Received > e ∧
      ¬ (F.Date_Returned ≠ 0 ∧ F.Date_Returned < s) ∧ AssetExists st bill_ID = false ∧
      AssetExists st F.Supplier_ID = true ∧ AssetExists st F.Fuelcell_ID = true ∧
      (GenerateBill st bill_ID fuelcell_ID startDate endDate).2 =
        markAll s e (relevantComponents st F.Fuelcell_ID s e)
          (st.put bill_ID (.bill (issuedBill st F bill_ID s e))) := by
  rw [GenerateBill_eq st bill_ID fuelcell_ID hF hs he] at h ⊢
  cases hov : overlapCheck F s e (GetAllBills st) with
  | some err => rw [hov] at h; simp at h
  | none =>
    rw [hov] at h
    simp only at h ⊢
    split_ifs at h ⊢ with h1 h2 hq h3 h4 h5
    refine ⟨trivial, h1, h2, by simpa using h3, by simpa using h4, by simpa using h5, rfl⟩

theorem journeyQueryFault_none_plain :
    ∀ {comps : List CarComponent}, journeyQueryFault comps = none →
      ∀ c ∈ comps, pastedKind c.Car_Component_ID = .plain
  | [], _, c, hc => by simp at hc
  | c0 :: rest, h, c, hc => by
    obtain ⟨hp, hrest⟩ := journeyQueryFault_cons_none h
    rcases List.mem_cons.1 hc with e | hm
    · exact e ▸ hp
    · exact journeyQueryFault_none_plain hrest c hm

theorem GenerateBill_ok_plain {st : Store} {bill_ID fuelcell_ID startDate endDate : String}
    {F : FuelcellData} {s e : Int} (hF : GetFuelcell st fuelcell_ID = .ok (some F))
    (hs : Atoi startDate = some s) (he : Atoi endDate = some e)
    (h : (GenerateBill st bill_ID fuelcell_ID startDate endDate).1 = .ok ()) :
    journeyQueryFault (relevantComponents st F.Fuelcell_ID s e) = none := by
  rw [GenerateBill_eq st bill_ID fuelcell_ID hF hs he] at h
  cases hov : overlapCheck F s e (GetAllBills st) with
  | some err => rw [hov] at h; simp at h
  | none =>
    rw [hov] at h
    simp only at h
    split_ifs at h with h1 h2 hq
    simpa using hq

/-! ## The marking loop -/

theorem markBilled_idem (a : Asset) : markBilled (markBilled a) = markBilled a := by
  cases a <;> rfl

theorem markBilled_ownID (a : Asset) : (markBilled a).ownID = a.ownID := by
  cases a <;> rfl

theorem marksOnly_refl (st : Store) : marksOnly st st := fun _ => Or.inl rfl

theorem marksOnly_trans {a b c : Store} (h1 : marksOnly a b) (h2 : marksOnly b c) :
    marksOnly a c := by
  intro k
  rcases h1 k with h1 | h1 <;> rcases h2 k with h2 | h2
  · exact Or.inl (h2.trans h1)
  · exact Or.inr (by rw [h2, h1])
  · exact Or.inr (by rw [h2, h1])
  · refine Or.inr ?_
    rw [h2, h1]
    cases a.get k <;> simp [markBilled_idem]

theorem markJourneys_spec :
    ∀ (js : List JourneyData) (cur : Store),
      (∀ j ∈ js, cur.get j.Journey_ID = some (.journey j) ∨
        cur.get j.Journey_ID = some (.journey { j with Billed := true })) →
      marksOnly cur (markJourneys js cur) ∧
        ∀ j ∈ js, (markJourneys js cur).get j.Journey_ID
          = some (.journey { j with Billed := true })
  | [], cur, _ => ⟨marksOnly_refl cur, fun _ h => by simp at h⟩
  | j :: rest, cur, hjs => by
    have hj := hjs j (List.mem_cons_self _ _)
    cases hb : j.Billed
    · -- the journey is written back with the flag set
      have hput : marksOnly cur (cur.put j.Journey_ID (.journey { j with Billed := true })) := by
        intro k
        rw [Store.get_put]
        by_cases hk : k = j.Journey_ID
        · subst hk
          rcases hj with hj | hj
          · exact Or.inr (by simp [hj, markBilled])
          · exact Or.inl (by simp [hj])
        · exact Or.inl (by simp [hk])
      have hrest : ∀ j' ∈ rest,
          (cur.put j.Journey_ID (.journey { j with Billed := true })).get j'.Journey_ID
              = some (.journey j') ∨
            (cur.put j.Journey_ID (.journey { j with Billed := true })).get j'.Journey_ID
              = some (.journey { j' with Billed := true }) := by
        intro j' hj'
        have h' := hjs j' (List.mem_cons_of_mem _ hj')
        rw [Store.get_put]
        by_cases hk : j'.Journey_ID = j.Journey_ID
        · rw [hk] at h'
          simp only [hk, if_true]
          rcases hj with hj | hj <;> rcases h' with h' | h'
          · rw [hj] at h'; cases h'; exact Or.inr rfl
          · rw [hj] at h'
            simp only [Option.some.injEq, Asset.journey.injEq] at h'
            rw [h'] at hb
            simp at hb
          · rw [hj] at h'
            simp only [Option.some.injEq, Asset.journey.injEq] at h'
            exact Or.inl (by rw [h'])
          · rw [hj] at h'
            simp only [Option.some.injEq, Asset.journey.injEq] at h'
            exact Or.inr (by rw [h'])
        · simpa [hk] using h'
      obtain ⟨ih1, ih2⟩ := markJourneys_spec rest _ hrest
      simp only [markJourneys, hb, Bool.not_false, if_true]
      refine ⟨marksOnly_trans hput ih1, ?_⟩
      intro j' hj'
      rcases List.mem_cons.1 hj' with e | hm
      · subst e
        rcases ih1 j'.Journey_ID with h | h
        · rw [h, Store.get_put]; simp
        · rw [h, Store.get_put]; simp [markBilled]
      · exact ih2 j' hm
    · -- the journey is already billed and is skipped
      have hjeq : ({ j with Billed := true } : JourneyData) = j := by
        cases j; simp_all
      obtain ⟨ih1, ih2⟩ := markJourneys_spec rest cur
        (fun j' hj' => hjs j' (List.mem_cons_of_mem _ hj'))
      simp only [markJourneys, hb, Bool.not_true, Bool.false_eq_true, if_false]
      refine ⟨ih1, ?_⟩
      intro j' hj'
      rcases List.mem_cons.1 hj' with e | hm
      · subst e
        rw [hjeq] at hj ⊢
        have hcur : cur.get j'.Journey_ID = some (.journey j') := by
          rcases hj with h | h <;> exact h
        rcases ih1 j'.Journey_ID with h | h
        · rw [h, hcur]
        · rw [h, hcur]
          simp only [Option.map_some', markBilled, hjeq]
      · exact ih2 j' hm

theorem mem_queryJourneys (st : Store) (cid : String) (j : JourneyData) :
    j ∈ queryJourneys st cid ↔
      (∃ k, st.get k = some (.journey j)) ∧ j.Car_Component_ID = cid := by
  unfold queryJourneys
  rw [List.mem_filterMap]
  constructor
  · rintro ⟨⟨k, a⟩, hmem, hval⟩
    cases a <;> simp at hval
    obtain ⟨hc, rfl⟩ := hval
    exact ⟨⟨k, (st.mem_entries_iff k _).1 hmem⟩, hc⟩
  · rintro ⟨⟨k, hk⟩, hc⟩
    exact ⟨(k, .journey j), (st.mem_entries_iff k _).2 hk, by simp [hc]⟩

theorem mem_relevantJourneys (st : Store) (cid : String) (s e : Int) (j : JourneyData) :
    j ∈ relevantJourneys st cid s e ↔
      (∃ k, st.get k = some (.journey j)) ∧ j.Car_Component_ID = cid ∧
        s < j.Journey_date ∧ j.Journey_date < e := by
  unfold relevantJourneys
  rw [List.mem_filter, mem_queryJourneys]
  simp [journeyInWindow, and_assoc]

theorem journeysKeyed_get {st : Store} (h : journeysKeyed st) {k : String} {j : JourneyData}
    (hk : st.get k = some (.journey j)) : k = j.Journey_ID :=
  h (k, .journey j) ((st.mem_entries_iff k _).2 hk) rfl

theorem journeysKeyed_of_get {st : Store}
    (h : ∀ k j, st.get k = some (.journey j) → k = j.Journey_ID) : journeysKeyed st := by
  rintro ⟨k, a⟩ hmem hj
  cases a <;> simp [Asset.isJourney] at hj
  exact h k _ ((st.mem_entries_iff k _).1 hmem)

theorem keyedByOwnID_get {st : Store} (h : keyedByOwnID st) {k : String} {a : Asset}
    (hk : st.get k = some a) : k = a.ownID :=
  h (k, a) ((st.mem_entries_iff k a).2 hk)

theorem keyedByOwnID_of_get {st : Store} (h : ∀ k a, st.get k = some a → k = a.ownID) :
    keyedByOwnID st := by
  rintro ⟨k, a⟩ hmem
  exact h k a ((st.mem_entries_iff k a).1 hmem)

theorem keyedByOwnID.journeysKeyed {st : Store} (h : keyedByOwnID st) : journeysKeyed st :=
  fun kv hkv _ => h kv hkv

theorem marksOnly_journeysKeyed {st cur : Store} (hm : marksOnly st cur)
    (h : journeysKeyed st) : journeysKeyed cur := by
  apply journeysKeyed_of_get
  intro k j hk
  rcases hm k with e | e
  · rw [e] at hk
    exact journeysKeyed_get h hk
  · rw [e] at hk
    cases hst : st.get k with
    | none => rw [hst] at hk; simp at hk
    | some a =>
      rw [hst] at hk
      cases a <;> simp [markBilled] at hk
      rename_i j0
      have := journeysKeyed_get h hst
      rw [this, ← hk]

theorem marksOnly_keyedByOwnID {st cur : Store} (hm : marksOnly st cur)
    (h : keyedByOwnID st) : keyedByOwnID cur := by
  apply keyedByOwnID_of_get
  intro k a hk
  rcases hm k with e | e
  · rw [e] at hk
    exact keyedByOwnID_get h hk
  · rw [e] at hk
    cases hst : st.get k with
    | none => rw [hst] at hk; simp at hk
    | some a0 =>
      rw [hst] at hk
      simp only [Option.map_some', Option.some.injEq] at hk
      rw [← hk, markBilled_ownID]
      exact keyedByOwnID_get h hst

/-- On a store whose journeys stand under their own IDs the marking loop only sets flags,
and sets the flag of every journey of the given components inside the window. -/
theorem markAll_spec (s e : Int) :
    ∀ (comps : List CarComponent) (cur : Store), journeysKeyed cur →
      marksOnly cur (markAll s e comps cur) ∧
        ∀ c ∈ comps, ∀ j ∈ relevantJourneys cur c.Car_Component_ID s e,
          (markAll s e comps cur).get j.Journey_ID = some (.journey { j with Billed := true })
  | [], cur, _ => ⟨marksOnly_refl cur, fun _ h => by simp at h⟩
  | c :: rest, cur, hk => by
    have hpre : ∀ j ∈ relevantJourneys cur c.Car_Component_ID s e,
        cur.get j.Journey_ID = some (.journey j) ∨
          cur.get j.Journey_ID = some (.journey { j with Billed := true }) := by
      intro j hj
      obtain ⟨⟨k, hget⟩, _⟩ := (mem_relevantJourneys cur _ s e j).1 hj
      have := journeysKeyed_get hk hget
      subst this
      exact Or.inl hget
    obtain ⟨m1, m2⟩ := markJourneys_spec _ cur hpre
    obtain ⟨ih1, ih2⟩ := markAll_spec s e rest _ (marksOnly_journeysKeyed m1 hk)
    simp only [markAll]
    refine ⟨marksOnly_trans m1 ih1, ?_⟩
    intro c' hc' j hj
    -- after the first component's journeys are marked, the entry under `j`'s ID is `j`
    -- itself or `j` with the flag set
    obtain ⟨⟨k, hget⟩, hcid, hlo, hhi⟩ := (mem_relevantJourneys cur _ s e j).1 hj
    have hkid := journeysKeyed_get hk hget
    subst hkid
    rcases List.mem_cons.1 hc' with e1 | hm
    · subst e1
      have h1 := m2 j hj
      rcases ih1 j.Journey_ID with h | h
      · rw [h, h1]
      · rw [h, h1]; rfl
    · set mid := markJourneys (relevantJourneys cur c.Car_Component_ID s e) cur with hmid
      rcases m1 j.Journey_ID with h | h
      · have hj' : j ∈ relevantJourneys mid c'.Car_Component_ID s e :=
          (mem_relevantJourneys mid _ s e j).2 ⟨⟨_, h.trans hget⟩, hcid, hlo, hhi⟩
        exact ih2 c' hm j hj'
      · rw [hget] at h
        simp only [Option.map_some', markBilled] at h
        have hj' : ({ j with Billed := true } : JourneyData) ∈
            relevantJourneys mid c'.Car_Component_ID s e :=
          (mem_relevantJourneys mid _ s e _).2 ⟨⟨_, h⟩, hcid, hlo, hhi⟩
        exact ih2 c' hm { j with Billed := true } hj'

/-! ## C3: no journey is charged twice -/

theorem journeyIDs_sublist_keys (cid : String) :
    ∀ l : List (String × Asset), (∀ kv ∈ l, kv.1 = kv.2.ownID) →
      List.Sublist
        ((l.filterMap fun kv =>
          match kv.2 with
          | .journey j => if j.Car_Component_ID = cid then some j else none
          | _ => none).map (·.Journey_ID))
        (l.map Prod.fst)
  | [], _ => List.Sublist.slnil
  | (k, a) :: rest, h => by
    have ih := journeyIDs_sublist_keys cid rest
      (fun kv hkv => h kv (List.mem_cons_of_mem _ hkv))
    have hk := h (k, a) (List.mem_cons_self _ _)
    cases a with
    | journey j =>
      by_cases hc : j.Car_Component_ID = cid
      · simp only [Asset.ownID] at hk
        simp only [List.filterMap_cons, hc, if_true, List.map_cons, hk]
        exact List.Sublist.cons₂ _ ih
      · simp only [List.filterMap_cons, hc, if_false, List.map_cons]
        exact List.Sublist.cons _ ih
    | _ =>
      simp only [List.filterMap_cons, List.map_cons]
      exact List.Sublist.cons _ ih

theorem componentIDs_sublist_keys (fid : String) :
    ∀ l : List (String × Asset), (∀ kv ∈ l, kv.1 = kv.2.ownID) →
      List.Sublist
        ((l.filterMap fun kv =>
          match kv.2 with
          | .carComponent c => if c.Fuelcell_ID = fid then some c else none
          | _ => none).map (·.Car_Component_ID))
        (l.map Prod.fst)
  | [], _ => List.Sublist.slnil
  | (k, a) :: rest, h => by
    have ih := componentIDs_sublist_keys fid rest
      (fun kv hkv => h kv (List.mem_cons_of_mem _ hkv))
    have hk := h (k, a) (List.mem_cons_self _ _)
    cases a with
    | carComponent c =>
      by_cases hc : c.Fuelcell_ID = fid
      · simp only [Asset.ownID] at hk
        simp only [List.filterMap_cons, hc, if_true, List.map_cons, hk]
        exact List.Sublist.cons₂ _ ih
      · simp only [List.filterMap_cons, hc, if_false, List.map_cons]
        exact List.Sublist.cons _ ih
    | _ =>
      simp only [List.filterMap_cons, List.map_cons]
      exact List.Sublist.cons _ ih

theorem unbilled_relevant_ids_nodup {st : Store} (hk : keyedByOwnID st) (cid : String)
    (s e : Int) :
    (((relevantJourneys st cid s e).filter fun j => !j.Billed).map (·.Journey_ID)).Nodup := by
  have h1 : ((queryJourneys st cid).map (·.Journey_ID)).Nodup :=
    (journeyIDs_sublist_keys cid st.entries hk).nodup st.nodup
  have h2 : List.Sublist ((relevantJourneys st cid s e).filter fun j => !j.Billed)
      (queryJourneys st cid) :=
    (List.filter_sublist _).trans (List.filter_sublist _)
  exact (h2.map _).nodup h1

theorem relevantComponents_ids_nodup {st : Store} (hk : keyedByOwnID st) (fid : String)
    (s e : Int) : ((relevantComponents st fid s e).map (·.Car_Component_ID)).Nodup := by
  have h1 : ((queryCarComponents st fid).map (·.Car_Component_ID)).Nodup :=
    (componentIDs_sublist_keys fid st.entries hk).nodup st.nodup
  exact ((List.filter_sublist _).map _).nodup h1

theorem mem_chargedJourneys {st : Store} {comps : List CarComponent} {s e : Int}
    {j : JourneyData} :
    j ∈ chargedJourneys st comps s e ↔
      ∃ c ∈ comps, j ∈ relevantJourneys st c.Car_Component_ID s e ∧ j.Billed = false := by
  simp [chargedJourneys, List.mem_flatMap, List.mem_filter]

theorem chargedJourneys_ids_nodup {st : Store} (hk : keyedByOwnID st) (fid : String)
    (s e : Int) :
    ((chargedJourneys st (relevantComponents st fid s e) s e).map (·.Journey_ID)).Nodup := by
  unfold chargedJourneys
  rw [List.map_flatMap, List.nodup_flatMap]
  refine ⟨fun c _ => unbilled_relevant_ids_nodup hk _ s e, ?_⟩
  have hc := relevantComponents_ids_nodup hk fid s e
  rw [List.Nodup, List.pairwise_map] at hc
  refine hc.imp ?_
  intro a b hab
  rw [Function.onFun, List.disjoint_left]
  intro id h1 h2
  simp only [List.mem_map, List.mem_filter] at h1 h2
  obtain ⟨j1, ⟨hj1, _⟩, rfl⟩ := h1
  obtain ⟨j2, ⟨hj2, _⟩, hid⟩ := h2
  obtain ⟨⟨k1, hg1⟩, hc1, _⟩ := (mem_relevantJourneys st _ s e j1).1 hj1
  obtain ⟨⟨k2, hg2⟩, hc2, _⟩ := (mem_relevantJourneys st _ s e j2).1 hj2
  have e1 := keyedByOwnID_get hk hg1
  have e2 := keyedByOwnID_get hk hg2
  simp only [Asset.ownID] at e1 e2
  rw [e1] at hg1
  rw [e2, hid, hg1] at hg2
  simp only [Option.some.injEq, Asset.journey.injEq] at hg2
  rw [hg2] at hc1
  exact hab (hc1.symm.trans hc2)

theorem get_of_AssetExists_false {st : Store} {k : String} (h : AssetExists st k = false) :
    st.get k = none := by
  unfold AssetExists at h
  cases hg : st.get k with
  | none => rfl
  | some a => rw [hg] at h; simp at h

theorem get_put_new {st : Store} {key : String} (a : Asset)
    (hnew : AssetExists st key = false) {k : String} {x : Asset} (hk : st.get k = some x) :
    (st.put key a).get k = some x := by
  rw [Store.get_put]
  have : ¬ k = key := by
    intro e
    rw [e, get_of_AssetExists_false hnew] at hk
    cases hk
  simp [this, hk]

theorem keyedByOwnID_put {st : Store} (h : keyedByOwnID st) (a : Asset) :
    keyedByOwnID (st.put a.ownID a) := by
  apply keyedByOwnID_of_get
  intro k x hk
  rw [Store.get_put] at hk
  by_cases e : k = a.ownID
  · simp only [e, if_true, Option.some.injEq] at hk
    rw [← hk, e]
  · simp only [e, if_false] at hk
    exact keyedByOwnID_get h hk

theorem journeysKeyed_put_bill {st : Store} (h : journeysKeyed st) (key : String) (b : Bill) :
    journeysKeyed (st.put key (.bill b)) := by
  apply journeysKeyed_of_get
  intro k j hk
  rw [Store.get_put] at hk
  by_cases e : k = key
  · simp [e] at hk
  · simp only [e, if_false] at hk
    exact journeysKeyed_get h hk

/-- What a successful `GenerateBill` leaves behind on a store whose journeys stand under
their own IDs. -/
theorem GenerateBill_ok_store {st : Store} {bill_ID fuelcell_ID startDate endDate : String}
    {F : FuelcellData} {s e : Int} (hkey : journeysKeyed st)
    (hF : GetFuelcell st fuelcell_ID = .ok (some F))
    (hs : Atoi startDate = some s) (he : Atoi endDate = some e)
    (h : (GenerateBill st bill_ID fuelcell_ID startDate endDate).1 = .ok ()) :
    marksOnly (st.put bill_ID (.bill (issuedBill st F bill_ID s e)))
        (GenerateBill st bill_ID fuelcell_ID startDate endDate).2 ∧
      AssetExists st bill_ID = false ∧
      ∀ j ∈ chargedJourneys st (relevantComponents st F.Fuelcell_ID s e) s e,
        (GenerateBill st bill_ID fuelcell_ID startDate endDate).2.get j.Journey_ID
          = some (.journey { j with Billed := true }) := by
  obtain ⟨_, _, _, hnew, _, _, hfinal⟩ := GenerateBill_ok hF hs he h
  have hkey1 := journeysKeyed_put_bill hkey bill_ID (issuedBill st F bill_ID s e)
  obtain ⟨m1, m2⟩ := markAll_spec s e (relevantComponents st F.Fuelcell_ID s e) _ hkey1
  rw [hfinal]
  refine ⟨m1, hnew, ?_⟩
  intro j hj
  obtain ⟨c, hc, hrel, _⟩ := mem_chargedJourneys.1 hj
  obtain ⟨⟨k, hget⟩, hrest⟩ := (mem_relevantJourneys st _ s e j).1 hrel
  exact m2 c hc j ((mem_relevantJourneys _ _ s e j).2 ⟨⟨k, get_put_new _ hnew hget⟩, hrest⟩)

theorem chargedIn_of_ok {st : Store} {r : BillRequest} {F : FuelcellData} {s e : Int}
    (hF : GetFuelcell st r.fuelcell_ID = .ok (some F)) (hs : Atoi r.startDate = some s)
    (he : Atoi r.endDate = some e)
    (h : (GenerateBill st r.bill_ID r.fuelcell_ID r.startDate r.endDate).1 = .ok ()) :
    chargedIn st r = chargedJourneys st (relevantComponents st F.Fuelcell_ID s e) s e := by
  simp [chargedIn, hF, hs, he, h]

theorem chargedIn_of_error {st : Store} {r : BillRequest} {f : Fault}
    (h : (GenerateBill st r.bill_ID r.fuelcell_ID r.startDate r.endDate).1 = .error f) :
    chargedIn st r = [] := by
  unfold chargedIn
  rw [h]
  match GetFuelcell st r.fuelcell_ID with
  | .error _ => rfl
  | .ok none => rfl
  | .ok (some _) => cases Atoi r.startDate <;> cases Atoi r.endDate <;> rfl

/-- The facts about one call that the induction over a sequence of calls uses. -/
theorem chargedIn_step {st : Store} (hk : keyedByOwnID st) (r : BillRequest) :
    keyedByOwnID (r.after st) ∧
      ((chargedIn st r).map (·.Journey_ID)).Nodup ∧
      (∀ j ∈ chargedIn st r, st.get j.Journey_ID = some (.journey j) ∧ j.Billed = false ∧
        (r.after st).get j.Journey_ID = some (.journey { j with Billed := true })) ∧
      (∀ k j, (r.after st).get k = some (.journey j) → j.Billed = false →
        st.get k = some (.journey j)) := by
  unfold BillRequest.after
  cases hres : (GenerateBill st r.bill_ID r.fuelcell_ID r.startDate r.endDate).1 with
  | error f =>
    rw [GenerateBill_error_store st _ _ _ _ f hres, chargedIn_of_error hres]
    exact ⟨hk, List.nodup_nil, fun _ h => by simp at h, fun _ _ h _ => h⟩
  | ok u =>
    obtain ⟨F, s, e, hF, hs, he⟩ := GenerateBill_ok_parse hres
    obtain ⟨hm, hnew, hmarked⟩ := GenerateBill_ok_store hk.journeysKeyed hF hs he hres
    rw [chargedIn_of_ok hF hs he hres]
    have hk1 : keyedByOwnID (st.put r.bill_ID (.bill (issuedBill st F r.bill_ID s e))) :=
      keyedByOwnID_put hk (.bill (issuedBill st F r.bill_ID s e))
    refine ⟨marksOnly_keyedByOwnID hm hk1, chargedJourneys_ids_nodup hk _ s e, ?_, ?_⟩
    · intro j hj
      obtain ⟨c, _, hrel, hb⟩ := mem_chargedJourneys.1 hj
      obtain ⟨⟨k, hget⟩, _⟩ := (mem_relevantJourneys st _ s e j).1 hrel
      have hkj := keyedByOwnID_get hk hget
      simp only [Asset.ownID] at hkj
      rw [hkj] at hget
      exact ⟨hget, hb, hmarked j hj⟩
    · intro k j hget hb
      have hst1 : (st.put r.bill_ID (.bill (issuedBill st F r.bill_ID s e))).get k
          = some (.journey j) := by
        rcases hm k with h | h
        · rw [← h]; exact hget
        · rw [h] at hget
          cases hx : (st.put r.bill_ID (.bill (issuedBill st F r.bill_ID s e))).get k with
          | none => rw [hx] at hget; simp at hget
          | some a =>
            rw [hx] at hget
            cases a <;> simp [markBilled] at hget
            rw [← hget] at hb
            simp at hb
      rw [Store.get_put] at hst1
      by_cases e1 : k = r.bill_ID
      · simp [e1] at hst1
      · simpa [e1] using hst1

theorem chargeLog_nodup :
    ∀ (rs : List BillRequest) (st : Store), keyedByOwnID st →
      ((chargeLog st rs).map (·.Journey_ID)).Nodup ∧
        ∀ j ∈ chargeLog st rs, ∃ j0, st.get j.Journey_ID = some (.journey j0) ∧
          j0.Billed = false
  | [], _, _ => ⟨List.nodup_nil, fun _ h => by simp [chargeLog] at h⟩
  | r :: rest, st, hk => by
    obtain ⟨hk', hnd, hch, hback⟩ := chargedIn_step hk r
    obtain ⟨ih1, ih2⟩ := chargeLog_nodup rest (r.after st) hk'
    simp only [chargeLog, List.map_append]
    refine ⟨List.nodup_append.2 ⟨hnd, ih1, ?_⟩, ?_⟩
    · rw [List.disjoint_left]
      intro id h1 h2
      obtain ⟨j, hj, rfl⟩ := List.mem_map.1 h1
      obtain ⟨j', hj', hid⟩ := List.mem_map.1 h2
      obtain ⟨j0, hget0, hb0⟩ := ih2 j' hj'
      rw [hid, (hch j hj).2.2] at hget0
      simp only [Option.some.injEq, Asset.journey.injEq] at hget0
      rw [← hget0] at hb0
      simp at hb0
    · intro j hj
      rcases List.mem_append.1 hj with h | h
      · exact ⟨j, (hch j h).1, (hch j h).2.1⟩
      · obtain ⟨j0, hget0, hb0⟩ := ih2 j h
        exact ⟨j0, hback _ _ hget0 hb0, hb0⟩

/-- C3: on a store in which every document stands under its own ID, run any sequence of
`GenerateBill` calls: no journey ID occurs twice among the journeys charged by the successful
calls.  For each call, every journey it charges was unbilled before and is stored with
`Billed = true` after, and the amount of the bill stored is the base charge plus the costs of
exactly the journeys charged. -/
theorem C3_no_double_charging (st : Store) (hk : keyedByOwnID st) (rs : List BillRequest) :
    ((chargeLog st rs).map (·.Journey_ID)).Nodup ∧
    (∀ r : BillRequest, ∀ j ∈ chargedIn st r,
      j.Billed = false ∧
        (r.after st).get j.Journey_ID = some (.journey { j with Billed := true })) ∧
    (∀ (r : BillRequest) (F : FuelcellData) (s e : Int),
      GetFuelcell st r.fuelcell_ID = .ok (some F) → Atoi r.startDate = some s →
      Atoi r.endDate = some e →
      (GenerateBill st r.bill_ID r.fuelcell_ID r.startDate r.endDate).1 = .ok () →
      ∃ B, (r.after st).get r.bill_ID = some (.bill B) ∧
        B.Amount = basecharge F s e + ((chargedIn st r).map (JourneyCost F)).sum) := by
  refine ⟨(chargeLog_nodup rs st hk).1, ?_, ?_⟩
  · intro r j hj
    obtain ⟨_, _, hch, _⟩ := chargedIn_step hk r
    exact ⟨(hch j hj).2.1, (hch j hj).2.2⟩
  · intro r F s e hF hs he hok
    obtain ⟨hm, _, _⟩ := GenerateBill_ok_store hk.journeysKeyed hF hs he hok
    refine ⟨issuedBill st F r.bill_ID s e, ?_, ?_⟩
    · unfold BillRequest.after
      rcases hm r.bill_ID with h | h
      · rw [h, Store.get_put]; simp
      · rw [h, Store.get_put]; simp [markBilled]
    · rw [chargedIn_of_ok hF hs he hok]
      rfl

/-- C3 at the fixture: FuelCell2 is billed for January and then for February to June; the
first call charges Journey3, the second Journey4. -/
theorem C3_no_double_charging_witness :
    keyedByOwnID fixture ∧
    (chargeLog fixture
        [⟨"Bill1", "FuelCell2", "20210101", "20210131"⟩,
         ⟨"Bill2", "FuelCell2", "20210201", "20210630"⟩]).map (·.Journey_ID)
      = ["Journey3", "Journey4"] ∧
    ((chargeLog fixture
        [⟨"Bill1", "FuelCell2", "20210101", "20210131"⟩,
         ⟨"Bill2", "FuelCell2", "20210201", "20210630"⟩]).map (·.Journey_ID)).Nodup :=
  ⟨by decide, by decide, (C3_no_double_charging fixture (by decide) _).1⟩

/-! ## C4: the billed flag -/

theorem foldl_put_get_other (k : String) :
    ∀ (l : List Asset) (st : Store), k ∉ l.map Asset.ownID →
      (l.foldl (fun s asset => s.put asset.ownID asset) st).get k = st.get k
  | [], _, _ => rfl
  | a :: rest, st, h => by
    simp only [List.map_cons, List.mem_cons, not_or] at h
    rw [List.foldl_cons, foldl_put_get_other k rest _ h.2, Store.get_put]
    simp [h.1]

/-- C4 (as amended): a journey stored with `Billed = true` is still stored, unchanged, under
the same key after `CreateNewBill` and after `CreateJourney` on every store, after
`GenerateBill` on every store whose journeys stand under their own `Journey_ID`, and after
`InitLedger` when its key is not the ID of a fixture document. -/
theorem C4_billed_flag_kept (st : Store) (k : String) (j : JourneyData)
    (hget : st.get k = some (.journey j)) (hb : j.Billed = true) :
    (∀ Bill_ID Supplier_ID Fuelcell_ID startDate endDate Currency amount,
      (CreateNewBill st Bill_ID Supplier_ID Fuelcell_ID startDate endDate Currency amount).2.get k
        = some (.journey j)) ∧
    (∀ Journey_ID Car_ID Car_Component_ID Odo_start Distance H2_used Efficiency FuelSupplier
        Date,
      (CreateJourney st Journey_ID Car_ID Car_Component_ID Odo_start Distance H2_used
        Efficiency FuelSupplier Date).2.get k = some (.journey j)) ∧
    (journeysKeyed st → ∀ bill_ID fuelcell_ID startDate endDate,
      (GenerateBill st bill_ID fuelcell_ID startDate endDate).2.get k = some (.journey j)) ∧
    (k ∉ initialAssets.map Asset.ownID → (InitLedger st).2.get k = some (.journey j)) := by
  have hjeq : ({ j with Billed := true } : JourneyData) = j := by
    cases j; simp_all
  refine ⟨?_, ?_, ?_, ?_⟩
  · intro b sup fid sd ed cur amount
    unfold CreateNewBill
    split_ifs with h1 h2 h3
    · exact hget
    · exact hget
    · exact hget
    · cases Atoi ed with
      | none => exact hget
      | some e =>
        cases Atoi sd with
        | none => exact hget
        | some s => exact get_put_new _ (by simpa using h1) hget
  · intro a1 a2 a3 a4 a5 a6 a7 a8 a9
    rw [CreateJourney_store]
    exact hget
  · intro hkey b fid sd ed
    cases hres : (GenerateBill st b fid sd ed).1 with
    | error f =>
      rw [GenerateBill_error_store st _ _ _ _ f hres]
      exact hget
    | ok u =>
      obtain ⟨F, s, e, hF, hs, he⟩ := GenerateBill_ok_parse hres
      obtain ⟨hm, hnew, _⟩ := GenerateBill_ok_store hkey hF hs he hres
      have h1 := get_put_new (.bill (issuedBill st F b s e)) hnew hget
      rcases hm k with h | h
      · rw [h, h1]
      · rw [h, h1]
        simp only [Option.map_some', markBilled, hjeq]
  · intro hk
    exact (foldl_put_get_other k initialAssets st hk).trans hget

/-- The amended C4 at the fixture: the billed Journey3 survives a later `GenerateBill`. -/
theorem C4_billed_flag_kept_witness :
    fixtureBilled.get "Journey3" = some (.journey journey3Billed) ∧
    journey3Billed.Billed = true ∧ journeysKeyed fixtureBilled ∧
    (GenerateBill fixtureBilled "Bill2" "FuelCell2" "20210201" "20210630").1 = .ok () ∧
    (GenerateBill fixtureBilled "Bill2" "FuelCell2" "20210201" "20210630").2.get "Journey3"
      = some (.journey journey3Billed) :=
  ⟨rfl, rfl, by decide, rfl,
    (C4_billed_flag_kept fixtureBilled "Journey3" journey3Billed rfl rfl).2.2.1 (by decide)
      _ _ _ _⟩

/-- C4 fails for `InitLedger`, which writes its fixture journeys with `Billed = false` over
whatever stands under their keys; and it fails for `GenerateBill` on a store holding a journey
under a key other than its `Journey_ID`, where marking that journey overwrites the billed
journey standing under the ID. -/
theorem C4_billed_journey_overwritten :
    (fixtureBilled.get "Journey3" = some (.journey journey3Billed) ∧
      journey3Billed.Billed = true ∧
      (InitLedger fixtureBilled).2.get "Journey3"
        = some (.journey { journey3Billed with Billed := false })) ∧
    (strayStore.get "Journey7" = some (.journey paidJourney) ∧
      paidJourney.Billed = true ∧
      (GenerateBill strayStore "Bill1" "FuelCell2" "20210101" "20210131").2.get "Journey7"
        = some (.journey { strayJourney with Billed := true }) ∧
      strayJourney.Distance ≠ paidJourney.Distance) :=
  ⟨⟨rfl, rfl, rfl⟩, ⟨rfl, rfl, rfl, by decide⟩⟩

/-! ## C5: the amount of the bill -/

theorem GenerateBill_ok_bill {st : Store} {bill_ID fuelcell_ID startDate endDate : String}
    {F : FuelcellData} {s e : Int} (hkey : journeysKeyed st)
    (hF : GetFuelcell st fuelcell_ID = .ok (some F))
    (hs : Atoi startDate = some s) (he : Atoi endDate = some e)
    (h : (GenerateBill st bill_ID fuelcell_ID startDate endDate).1 = .ok ()) :
    (GenerateBill st bill_ID fuelcell_ID startDate endDate).2.get bill_ID
      = some (.bill (issuedBill st F bill_ID s e)) := by
  obtain ⟨hm, _, _⟩ := GenerateBill_ok_store hkey hF hs he h
  rcases hm bill_ID with h | h
  · rw [h, Store.get_put]; simp
  · rw [h, Store.get_put]; simp [markBilled]

theorem wrapInt64_of_fits {n : Int} (h : -(2 ^ 63 : Int) ≤ n ∧ n < 2 ^ 63) :
    wrapInt64 n = n := by
  unfold wrapInt64
  rw [Int.emod_eq_of_lt (by omega) (by omega)]
  omega

/-- C5 (as amended): when `GenerateBill` succeeds and `e - s` fits the 64-bit `int`, the bill
handed to the store has amount `(e - s + 1) * Base_rate` plus the sum, over the components
returned by `GetAllCarCompForFuelCellBetweenDates` and their journeys returned by
`GetAllJourneysbetweendatesforCarComponent` with `Billed = false`, of
`Distance * Distance_rate + H2_used * Efficiency * Energy_rate`; that bill stands under
`bill_ID` afterwards when the journeys of the store stand under their own IDs. -/
theorem C5_bill_amount (st : Store) (bill_ID fuelcell_ID startDate endDate : String)
    (F : FuelcellData) (s e : Int) (hF : GetFuelcell st fuelcell_ID = .ok (some F))
    (hs : Atoi startDate = some s) (he : Atoi endDate = some e)
    (hok : (GenerateBill st bill_ID fuelcell_ID startDate endDate).1 = .ok ())
    (hfit : -(2 ^ 63 : Int) ≤ e - s ∧ e - s < 2 ^ 63) :
    ∃ (comps : List CarComponent) (B : Bill),
      GetAllCarCompForFuelCellBetweenDates st F.Fuelcell_ID startDate endDate = .ok comps ∧
      (∀ c ∈ comps,
        GetAllJourneysbetweendatesforCarComponent st c.Car_Component_ID startDate endDate
          = .ok (relevantJourneys st c.Car_Component_ID s e)) ∧
      (∀ c, plainID c →
        GetAllJourneysbetweendatesforCarComponent st c startDate endDate
          = .ok (relevantJourneys st c s e)) ∧
      (GenerateBill st bill_ID fuelcell_ID startDate endDate).2
        = markAll s e comps (st.put bill_ID (.bill B)) ∧
      (journeysKeyed st →
        (GenerateBill st bill_ID fuelcell_ID startDate endDate).2.get bill_ID
          = some (.bill B)) ∧
      B.Amount = ((e - s + 1 : Int) : ℚ) * F.Base_rate +
        ((comps.flatMap fun c =>
            (relevantJourneys st c.Car_Component_ID s e).filter fun j => !j.Billed).map
          fun j => (j.Distance : ℚ) * F.Distance_rate +
            (j.H2_used : ℚ) * j.Efficiency * F.Energy_rate).sum := by
  obtain ⟨_, _, _, _, _, _, hfinal⟩ := GenerateBill_ok hF hs he hok
  have hplainF : pastedKind F.Fuelcell_ID = .plain :=
    (GetFuelcell_ok hF).2 ▸ (GetFuelcell_ok hF).1
  have hq := GenerateBill_ok_plain hF hs he hok
  refine ⟨relevantComponents st F.Fuelcell_ID s e, issuedBill st F bill_ID s e,
    getComponents_eq st hplainF hs he,
    fun c hc => getJourneys_eq st (journeyQueryFault_none_plain hq c hc) hs he,
    fun c hc => getJourneys_eq st (pastedKind_of_plainID hc) hs he, hfinal,
    fun hkey => GenerateBill_ok_bill hkey hF hs he hok, ?_⟩
  simp only [issuedBill, basecharge, dayCount, wrapInt64_of_fits hfit, chargedJourneys]
  push_cast
  rfl

/-- The amended C5 at the fixture: FuelCell2 billed for 20210101..20210130 is charged
Journey3 only, 80 for the journey and 15 for thirty days, 95 in all. -/
theorem C5_bill_amount_witness :
    GetFuelcell fixture "FuelCell2" = .ok (some fuelCell2) ∧
    Atoi "20210101" = some 20210101 ∧ Atoi "20210130" = some 20210130 ∧
    (GenerateBill fixture "Bill1" "FuelCell2" "20210101" "20210130").1 = .ok () ∧
    ∃ B, (GenerateBill fixture "Bill1" "FuelCell2" "20210101" "20210130").2.get "Bill1"
        = some (.bill B) ∧ B.Amount = 95 := by
  refine ⟨rfl, by decide, by decide, rfl, ?_⟩
  obtain ⟨comps, B, hcomps, _, _, _, hget, hB⟩ :=
    C5_bill_amount fixture "Bill1" "FuelCell2" "20210101" "20210130" fuelCell2
      20210101 20210130 rfl (by decide) (by decide) rfl (by decide)
  refine ⟨B, hget (by decide), ?_⟩
  have hc : comps = [component2] := by
    have h2 : GetAllCarCompForFuelCellBetweenDates fixture fuelCell2.Fuelcell_ID
        "20210101" "20210130" = .ok [component2] := rfl
    rw [h2] at hcomps
    injection hcomps with hcomps
    exact hcomps.symm
  have hj : relevantJourneys fixture component2.Car_Component_ID 20210101 20210130
      = [{ journey3Billed with Billed := false }] := rfl
  rw [hB, hc]
  simp only [List.flatMap_cons, List.flatMap_nil, List.append_nil, hj]
  norm_num [fuelCell2, journey3Billed]

/-- C5 fails where the machine subtraction wraps: with start `-1` and end `2^63 - 1` the
call succeeds and the base charge is `(-2^63 + 1) * Base_rate`, not `(2^63 + 1) * Base_rate`. -/
theorem C5_amount_wraps :
    GetFuelcell fixture "FuelCell1" = .ok (some fuelCell1) ∧
    Atoi "-1" = some (-1) ∧ Atoi "9223372036854775807" = some 9223372036854775807 ∧
    (GenerateBill fixture "Bill1" "FuelCell1" "-1" "9223372036854775807").1 = .ok () ∧
    ∃ B, (GenerateBill fixture "Bill1" "FuelCell1" "-1" "9223372036854775807").2.get "Bill1"
        = some (.bill B) ∧
      B.Amount ≠ ((9223372036854775807 - (-1) + 1 : Int) : ℚ) * fuelCell1.Base_rate +
        (((relevantComponents fixture "FuelCell1" (-1) 9223372036854775807).flatMap fun c =>
            (relevantJourneys fixture c.Car_Component_ID (-1) 9223372036854775807).filter
              fun j => !j.Billed).map
          fun j => (j.Distance : ℚ) * fuelCell1.Distance_rate +
            (j.H2_used : ℚ) * j.Efficiency * fuelCell1.Energy_rate).sum := by
  refine ⟨rfl, by decide, by decide, rfl,
    issuedBill fixture fuelCell1 "Bill1" (-1) 9223372036854775807,
    GenerateBill_ok_bill (by decide) rfl (by decide) (by decide) rfl, ?_⟩
  intro h
  have h2 : basecharge fuelCell1 (-1) 9223372036854775807
      = ((9223372036854775807 - (-1) + 1 : Int) : ℚ) * fuelCell1.Base_rate :=
    add_right_cancel h
  norm_num [basecharge, dayCount, wrapInt64, fuelCell1] at h2

/-! ## C6: the day count -/

/-- C6 fails on the code: for the valid dates 31 January 2021 and 1 February 2021 the window
holds two calendar days, and the count multiplied by the base rate is 71. -/
theorem C6_dayCount_across_months :
    validDate 20210131 ∧ validDate 20210201 ∧ (20210131 : Int) ≤ 20210201 ∧
    Atoi "20210131" = some 20210131 ∧ Atoi "20210201" = some 20210201 ∧
    calendarDays 20210131 20210201 = 2 ∧ dayCount 20210131 20210201 = 71 := by
  refine ⟨by decide, by decide, by decide, by decide, by decide, by decide, ?_⟩
  norm_num [dayCount, wrapInt64]

/-! ## C7: the currency of the bill -/

/-- C7 fails on the code: FuelCell2 of the fixture has currency "Pounds", and the bill
generated from its rates is stored with currency "£", the constant of line 260. -/
theorem C7_bill_currency_constant :
    GetFuelcell fixture "FuelCell2" = .ok (some fuelCell2) ∧ fuelCell2.Currency = "Pounds" ∧
    (GenerateBill fixture "Bill1" "FuelCell2" "20210101" "20210130").1 = .ok () ∧
    ∃ B, (GenerateBill fixture "Bill1" "FuelCell2" "20210101" "20210130").2.get "Bill1"
        = some (.bill B) ∧ B.Currency = "£" ∧ B.Currency ≠ fuelCell2.Currency :=
  ⟨rfl, rfl, rfl, issuedBill fixture fuelCell2 "Bill1" 20210101 20210130,
    GenerateBill_ok_bill (by decide) rfl (by decide) (by decide) rfl, rfl, by decide⟩

/-! ## C10: no write before the bill is stored -/

/-- C10: whenever `GenerateBill` does not succeed, the store it leaves is the store it was
given.  (Every failure of the embedding arises before the marking loop: lookup and upsert do
not fail, and the marking loop sends the queries the costing loop has already sent.) -/
theorem C10_failure_leaves_store (st : Store)
    (bill_ID fuelcell_ID startDate endDate : String) (f : Fault)
    (h : (GenerateBill st bill_ID fuelcell_ID startDate endDate).1 = .error f) :
    (GenerateBill st bill_ID fuelcell_ID startDate endDate).2 = st :=
  GenerateBill_error_store st bill_ID fuelcell_ID startDate endDate f h

/-- C10 at the fixture: a duplicate bill ID is refused by `CreateNewBill`, after the costing
loop, and nothing is written. -/
theorem C10_failure_leaves_store_witness :
    (GenerateBill fixtureBilled "Bill1" "FuelCell2" "20210201" "20210228").1
      = .error (.error .billExists) ∧
    (GenerateBill fixtureBilled "Bill1" "FuelCell2" "20210201" "20210228").2 = fixtureBilled :=
  ⟨rfl, C10_failure_leaves_store fixtureBilled "Bill1" "FuelCell2" "20210201" "20210228"
    (.error .billExists) rfl⟩

/-! ## C11: a fuel cell that is not stored -/

theorem GenerateBill_of_no_fuelcell (st : Store)
    (bill_ID fuelcell_ID startDate endDate : String)
    (hp : pastedKind fuelcell_ID = .plain) (h : queryFuelcells st fuelcell_ID = []) :
    GenerateBill st bill_ID fuelcell_ID startDate endDate = (.error .panic, st) := by
  simp [GenerateBill, GetFuelcell, queryResult, hp, h]

/-- C11 fails on the code: the fixture holds no fuel cell "FuelCell9"; `GetFuelcell` returns
the nil pointer without an error and `GenerateBill` dereferences it on line 195, so the call
ends in a panic and not in a returned error.  The store is left as it was. -/
theorem C11_missing_fuelcell_panics :
    queryFuelcells fixture "FuelCell9" = [] ∧
    GetFuelcell fixture "FuelCell9" = .ok none ∧
    (GenerateBill fixture "Bill1" "FuelCell9" "20210101" "20210131").1 = .error .panic ∧
    (∀ e : Err,
      (GenerateBill fixture "Bill1" "FuelCell9" "20210101" "20210131").1 ≠ .error (.error e)) ∧
    (GenerateBill fixture "Bill1" "FuelCell9" "20210101" "20210131").2 = fixture := by
  have h : queryFuelcells fixture "FuelCell9" = [] := by decide
  have hg := GenerateBill_of_no_fuelcell fixture "Bill1" "FuelCell9" "20210101" "20210131"
    (by decide) h
  refine ⟨h, rfl, by rw [hg], ?_, by rw [hg]⟩
  intro e he
  rw [hg] at he
  simp at he

/-! ## C12: creating a journey -/

theorem CreateJourney_never_ok (st : Store) (Journey_ID Car_ID Car_Component_ID Odo_start
    Distance H2_used : String) (Efficiency : ℚ) (FuelSupplier Date : String) :
    CreateJourney st Journey_ID Car_ID Car_Component_ID Odo_start Distance H2_used Efficiency
        FuelSupplier Date
      = if AssetExists st Journey_ID then (.error (.error .assetExists), st)
        else (.error (.error .carMissing), st) := by
  unfold CreateJourney
  cases AssetExists st Journey_ID <;> simp

/-- C12 fails on the code: on the fixture, which holds nothing under "Journey7", `CreateJourney`
with numeric arguments returns "the Car ... Doesn't exist" and writes nothing, so afterwards
`AssetExists` is still false and `ReadJourney` fails; and on no store and for no arguments does
`CreateJourney` succeed. -/
theorem C12_CreateJourney_always_fails :
    AssetExists fixture "Journey7" = false ∧
    Atoi "0" = some 0 ∧ Atoi "120" = some 120 ∧ Atoi "30" = some 30 ∧
    Atoi "20210701" = some 20210701 ∧
    (CreateJourney fixture "Journey7" "Car1" "Component1" "0" "120" "30" (1 / 2) "Supplier1"
      "20210701").1 = .error (.error .carMissing) ∧
    AssetExists (CreateJourney fixture "Journey7" "Car1" "Component1" "0" "120" "30" (1 / 2)
      "Supplier1" "20210701").2 "Journey7" = false ∧
    ReadJourney (CreateJourney fixture "Journey7" "Car1" "Component1" "0" "120" "30" (1 / 2)
      "Supplier1" "20210701").2 "Journey7" = .error (.error .assetMissing) ∧
    (∀ (st : Store) (Journey_ID Car_ID Car_Component_ID Odo_start Distance H2_used : String)
        (Efficiency : ℚ) (FuelSupplier Date : String),
      (CreateJourney st Journey_ID Car_ID Car_Component_ID Odo_start Distance H2_used
        Efficiency FuelSupplier Date).1 ≠ .ok () ∧
      (CreateJourney st Journey_ID Car_ID Car_Component_ID Odo_start Distance H2_used
        Efficiency FuelSupplier Date).2 = st) := by
  refine ⟨by decide, by decide, by decide, by decide, by decide, rfl, by decide, rfl, ?_⟩
  intro st a1 a2 a3 a4 a5 a6 a7 a8 a9
  rw [CreateJourney_never_ok]
  cases AssetExists st a1 <;> simp

/-! ## C13: dates that are not numbers -/

/-- C13 fails on the code: the three selectors parse the dates inside the loop over the query
result, so when the query is empty a date that is not a number goes unnoticed and the call
succeeds with the empty list; where the query is not empty the same dates are refused. -/
theorem C13_selectors_skip_date_check :
    Atoi "january" = none ∧
    queryCarComponents fixture "FuelCell9" = [] ∧
    GetAllCarCompForFuelCellBetweenDates fixture "FuelCell9" "january" "20210131" = .ok [] ∧
    queryJourneys fixture "Component9" = [] ∧
    GetAllJourneysbetweendatesforCarComponent fixture "Component9" "january" "20210131"
      = .ok [] ∧
    queryAllJourneys Store.empty = [] ∧
    GetAllJourneysbetweendates Store.empty "january" "20210131" = .ok [] ∧
    GetAllCarCompForFuelCellBetweenDates fixture "FuelCell2" "january" "20210131"
      = .error (.error .atoi) ∧
    GetAllJourneysbetweendatesforCarComponent fixture "Component2" "january" "20210131"
      = .error (.error .atoi) ∧
    GetAllJourneysbetweendates fixture "january" "20210131" = .error (.error .atoi) :=
  ⟨by decide, by decide, rfl, by decide, rfl, rfl, rfl, rfl, rfl, rfl⟩

/-! ## C14: the in-service check -/

/-- C14: with an existing fuel cell `F`, dates parsing to `s` and `e`, and no stored bill of
`F`'s supplier overlapping `[s, e]`, `GenerateBill` returns one of the two not-in-service errors
exactly when `F.Date_Received > e` or `F.Date_Returned ≠ 0 ∧ F.Date_Returned < s`, and then the
store is left as it was; so a fuel cell received on `e`, and returned on `s` or never, draws
neither error. -/
theorem C14_in_service_check (st : Store) (bill_ID fuelcell_ID startDate endDate : String)
    (F : FuelcellData) (s e : Int) (hF : GetFuelcell st fuelcell_ID = .ok (some F))
    (hs : Atoi startDate = some s) (he : Atoi endDate = some e)
    (hpass : ∀ B ∈ GetAllBills st, B.Supplier_ID = F.Supplier_ID →
      ¬ ((s < B.Date_from ∧ B.Date_from < e) ∨ (s ≤ B.Date_to ∧ B.Date_to ≤ e) ∨
        (B.Date_from < s ∧ s < B.Date_to) ∨ (B.Date_from ≤ e ∧ e ≤ B.Date_to))) :
    ((∃ err, err.isNotInService = true ∧
        (GenerateBill st bill_ID fuelcell_ID startDate endDate).1 = .error (.error err)) ↔
      (F.Date_Received > e ∨ (F.Date_Returned ≠ 0 ∧ F.Date_Returned < s))) ∧
    ((F.Date_Received > e ∨ (F.Date_Returned ≠ 0 ∧ F.Date_Returned < s)) →
      (GenerateBill st bill_ID fuelcell_ID startDate endDate).2 = st) ∧
    (F.Date_Received = e → (F.Date_Returned = 0 ∨ F.Date_Returned = s) →
      ¬ ∃ err, err.isNotInService = true ∧
        (GenerateBill st bill_ID fuelcell_ID startDate endDate).1 = .error (.error err)) := by
  have key := GenerateBill_eq st bill_ID fuelcell_ID hF hs he
  have hov : overlapCheck F s e (GetAllBills st) = none :=
    (overlapCheck_eq_none_iff F s e _).2 hpass
  rw [hov] at key
  simp only at key
  have hiff : (∃ err, err.isNotInService = true ∧
        (GenerateBill st bill_ID fuelcell_ID startDate endDate).1 = .error (.error err)) ↔
      (F.Date_Received > e ∨ (F.Date_Returned ≠ 0 ∧ F.Date_Returned < s)) := by
    rw [key]
    constructor
    · rintro ⟨err, herr, hres⟩
      by_cases h1 : F.Date_Received > e
      · exact Or.inl h1
      · by_cases h2 : F.Date_Returned ≠ 0 ∧ F.Date_Returned < s
        · exact Or.inr h2
        · exfalso
          simp only [h1, h2, if_false] at hres
          split_ifs at hres <;>
            first
            | (simp at hres; subst hres; simp [Err.isNotInService] at herr)
            | (rcases journeyQueryFault_getD (relevantComponents st F.Fuelcell_ID s e)
                  with h | h
               · rw [h] at hres; simp at hres; subst hres; simp [Err.isNotInService] at herr
               · rw [h] at hres; simp at hres)
    · intro h
      by_cases h1 : F.Date_Received > e
      · exact ⟨.fuelcellNotYetReceived, rfl, by simp [h1]⟩
      · rcases h with h | h
        · exact absurd h h1
        · exact ⟨.fuelcellAlreadyReturned, rfl, by simp [h1, h]⟩
  refine ⟨hiff, ?_, ?_⟩
  · intro h
    rw [key]
    by_cases h1 : F.Date_Received > e
    · simp [h1]
    · rcases h with h | h
      · exact absurd h h1
      · simp [h1, h]
  · intro hrec hret hex
    rcases hiff.1 hex with h | h
    · omega
    · rcases hret with h0 | h0
      · exact h.1 h0
      · omega

/-- C14 at the fixture: FuelCell2 was received on 20210122 and never returned; a window
ending on 20210121 is refused as not yet in service, and a window ending on 20210122 is
accepted. -/
theorem C14_in_service_check_witness :
    GetFuelcell fixture "FuelCell2" = .ok (some fuelCell2) ∧
    Atoi "20210101" = some 20210101 ∧ Atoi "20210121" = some 20210121 ∧
    GetAllBills fixture = [] ∧
    (∃ err, err.isNotInService = true ∧
      (GenerateBill fixture "Bill1" "FuelCell2" "20210101" "20210121").1
        = .error (.error err)) ∧
    (GenerateBill fixture "Bill1" "FuelCell2" "20210101" "20210121").1
      = .error (.error .fuelcellNotYetReceived) ∧
    (GenerateBill fixture "Bill1" "FuelCell2" "20210101" "20210122").1 = .ok () :=
  ⟨rfl, by decide, by decide, by decide,
    (C14_in_service_check fixture "Bill1" "FuelCell2" "20210101" "20210121" fuelCell2
      20210101 20210121 rfl (by decide) (by decide) (by decide)).1.2 (Or.inl (by decide)),
    rfl, rfl⟩

/-! ## C15: the overlap test as interval intersection -/

/-- C15: for windows `s ≤ e` and `Date_from ≤ Date_to`, the test of lines 206-219 reports an
error exactly when `s ≤ Date_to` and `Date_from ≤ e`, that is when the closed intervals meet;
the disjunction of the four tests says the same, the first and third tests each imply the
second or the fourth, and a window touching the bill on one boundary day is refused. -/
theorem C15_overlap_is_intersection (s e : Int) (B : Bill) (hse : s ≤ e)
    (hft : B.Date_from ≤ B.Date_to) :
    ((overlapError s e B).isSome = true ↔ (s ≤ B.Date_to ∧ B.Date_from ≤ e)) ∧
    (((s < B.Date_from ∧ B.Date_from < e) ∨ (s ≤ B.Date_to ∧ B.Date_to ≤ e) ∨
        (B.Date_from < s ∧ s < B.Date_to) ∨ (B.Date_from ≤ e ∧ e ≤ B.Date_to)) ↔
      (s ≤ B.Date_to ∧ B.Date_from ≤ e)) ∧
    ((s < B.Date_from ∧ B.Date_from < e) →
      (s ≤ B.Date_to ∧ B.Date_to ≤ e) ∨ (B.Date_from ≤ e ∧ e ≤ B.Date_to)) ∧
    ((B.Date_from < s ∧ s < B.Date_to) →
      (s ≤ B.Date_to ∧ B.Date_to ≤ e) ∨ (B.Date_from ≤ e ∧ e ≤ B.Date_to)) ∧
    (s = B.Date_to → overlapError s e B = some .encapsulatesEnd) ∧
    (e = B.Date_from → (overlapError s e B).isSome = true) := by
  have hnone := overlapError_eq_none_iff s e B
  unfold overlaps at hnone
  have hsome : (overlapError s e B).isSome = true ↔
      ((s < B.Date_from ∧ B.Date_from < e) ∨ (s ≤ B.Date_to ∧ B.Date_to ≤ e) ∨
        (B.Date_from < s ∧ s < B.Date_to) ∨ (B.Date_from ≤ e ∧ e ≤ B.Date_to)) := by
    cases h : overlapError s e B with
    | none =>
      have := hnone.1 h
      simp only [Option.isSome_none, Bool.false_eq_true, false_iff]
      exact this
    | some err =>
      simp only [Option.isSome_some, true_iff]
      by_contra hn
      have := hnone.2 hn
      rw [h] at this
      cases this
  refine ⟨?_, ?_, ?_, ?_, ?_, ?_⟩
  · rw [hsome]; omega
  · omega
  · omega
  · omega
  · intro h
    have h1 : ¬ (s < B.Date_from ∧ B.Date_from < e) := by omega
    have h2 : s ≤ B.Date_to ∧ B.Date_to ≤ e := by omega
    simp [overlapError, h1, h2]
  · intro h
    rw [hsome]; omega

/-- C15 at a bill for January 2021: a window that starts on its last day, 20210131, is
refused, and so is one that ends on its first day. -/
theorem C15_overlap_is_intersection_witness :
    (20210131 : Int) ≤ 20210228 ∧ (20210101 : Int) ≤ 20210131 ∧
    overlapError 20210131 20210228
      { Bill_ID := "Bill1", Supplier_ID := "Supplier2", Fuelcell_ID := "FuelCell2",
        Date_from := 20210101, Date_to := 20210131, Currency := "£", Amount := 95 }
      = some .encapsulatesEnd :=
  ⟨by decide, by decide,
    (C15_overlap_is_intersection 20210131 20210228
      { Bill_ID := "Bill1", Supplier_ID := "Supplier2", Fuelcell_ID := "FuelCell2",
        Date_from := 20210101, Date_to := 20210131, Currency := "£", Amount := 95 }
      (by decide) (by decide)).2.2.2.2.1 rfl⟩

/-! ## C8 and C9: the selectors -/

theorem mem_queryCarComponents (st : Store) (fid : String) (c : CarComponent) :
    c ∈ queryCarComponents st fid ↔
      (∃ k, st.get k = some (.carComponent c)) ∧ c.Fuelcell_ID = fid := by
  unfold queryCarComponents
  rw [List.mem_filterMap]
  constructor
  · rintro ⟨⟨k, a⟩, hmem, hval⟩
    cases a <;> simp at hval
    obtain ⟨hc, rfl⟩ := hval
    exact ⟨⟨k, (st.mem_entries_iff k _).1 hmem⟩, hc⟩
  · rintro ⟨⟨k, hk⟩, hc⟩
    exact ⟨(k, .carComponent c), (st.mem_entries_iff k _).2 hk, by simp [hc]⟩

/-- C8 (as amended): for a fuel cell id that holds no double quote, backslash or control
character, and with both dates parsing, `GetAllCarCompForFuelCellBetweenDates` returns the
stored components of the fuel cell, in query order, filtered by
`(Date_removed = 0 ∨ s ≤ Date_removed) ∧ Date_added ≤ e`; a component removed on `s` or
installed on `e` is kept. -/
theorem C8_component_filter (st : Store) (FuelcellID startDate endDate : String) (s e : Int)
    (hid : plainID FuelcellID)
    (hs : Atoi startDate = some s) (he : Atoi endDate = some e) :
    GetAllCarCompForFuelCellBetweenDates st FuelcellID startDate endDate
        = .ok ((queryCarComponents st FuelcellID).filter fun c =>
            (c.Date_removed = 0 ∨ s ≤ c.Date_removed) ∧ c.Date_added ≤ e) ∧
    (∀ c, c ∈ queryCarComponents st FuelcellID ↔
      (∃ k, st.get k = some (.carComponent c)) ∧ c.Fuelcell_ID = FuelcellID) ∧
    (∀ c ∈ queryCarComponents st FuelcellID, c.Date_removed = s → c.Date_added ≤ e →
      c ∈ (queryCarComponents st FuelcellID).filter fun c =>
        (c.Date_removed = 0 ∨ s ≤ c.Date_removed) ∧ c.Date_added ≤ e) ∧
    (∀ c ∈ queryCarComponents st FuelcellID, c.Date_added = e →
      (c.Date_removed = 0 ∨ s ≤ c.Date_removed) →
      c ∈ (queryCarComponents st FuelcellID).filter fun c =>
        (c.Date_removed = 0 ∨ s ≤ c.Date_removed) ∧ c.Date_added ≤ e) := by
  refine ⟨?_, mem_queryCarComponents st FuelcellID, ?_, ?_⟩
  · rw [getComponents_eq st (pastedKind_of_plainID hid) hs he]; rfl
  · intro c hc hrem hadd
    exact List.mem_filter.2 ⟨hc, by simp [hrem, hadd]⟩
  · intro c hc hadd hrem
    exact List.mem_filter.2 ⟨hc, by simp [hrem, hadd]⟩

/-- The amended C8 at the fixture: for FuelCell2 and the window 20210623..20210623, Component2
(removed on the first day) and Component3 (installed on the last day) are both returned. -/
theorem C8_component_filter_witness :
    plainID "FuelCell2" ∧ Atoi "20210623" = some 20210623 ∧
    GetAllCarCompForFuelCellBetweenDates fixture "FuelCell2" "20210623" "20210623"
      = .ok ((queryCarComponents fixture "FuelCell2").filter fun c =>
          (c.Date_removed = 0 ∨ (20210623 : Int) ≤ c.Date_removed) ∧
            c.Date_added ≤ (20210623 : Int)) ∧
    (queryCarComponents fixture "FuelCell2").filter (fun c =>
          (c.Date_removed = 0 ∨ (20210623 : Int) ≤ c.Date_removed) ∧
            c.Date_added ≤ (20210623 : Int))
      = queryCarComponents fixture "FuelCell2" ∧
    (queryCarComponents fixture "FuelCell2").map (·.Car_Component_ID)
      = ["Component2", "Component3"] :=
  ⟨by decide, by decide,
    (C8_component_filter fixture "FuelCell2" "20210623" "20210623" 20210623 20210623
      (by decide) (by decide) (by decide)).1,
    by decide, by decide⟩

/-- C8 fails for an id with a double quote: for `Fuel"Cell` the selector text of line 314 is
not JSON and the call returns the error of the query, where the claim has it return the
stored components with that `Fuelcell_ID` that pass the filter, here none. -/
theorem C8_quoted_id_is_refused :
    quotedID.toList.map Char.toNat = [70, 117, 101, 108, 34, 67, 101, 108, 108] ∧
    Atoi "20210101" = some 20210101 ∧ Atoi "20210131" = some 20210131 ∧
    (queryCarComponents fixture quotedID).filter (fun c =>
        (c.Date_removed = 0 ∨ (20210101 : Int) ≤ c.Date_removed) ∧
          c.Date_added ≤ (20210131 : Int)) = [] ∧
    GetAllCarCompForFuelCellBetweenDates fixture quotedID "20210101" "20210131"
      = .error (.error .query) ∧
    GetAllCarCompForFuelCellBetweenDates fixture quotedID "20210101" "20210131" ≠ .ok [] := by
  refine ⟨by decide, by decide, by decide, by decide, rfl, ?_⟩
  have h : GetAllCarCompForFuelCellBetweenDates fixture quotedID "20210101" "20210131"
      = .error (.error .query) := rfl
  rw [h]
  simp

/-- C9 (as amended): for a component id that holds no double quote, backslash or control
character, and with both dates parsing, `GetAllJourneysbetweendatesforCarComponent` returns the
stored journeys of the component, in query order, filtered by `s < Journey_date < e`; a
journey dated `s` or `e` is not returned, and the costing loop of `GenerateBill`, run on
components with such ids, adds the cost of no such journey. -/
theorem C9_journey_selector (st : Store) (Car_Component_ID startDate endDate : String)
    (s e : Int) (hid : plainID Car_Component_ID)
    (hs : Atoi startDate = some s) (he : Atoi endDate = some e) :
    GetAllJourneysbetweendatesforCarComponent st Car_Component_ID startDate endDate
        = .ok ((queryJourneys st Car_Component_ID).filter fun j =>
            s < j.Journey_date ∧ j.Journey_date < e) ∧
    (∀ j, j ∈ queryJourneys st Car_Component_ID ↔
      (∃ k, st.get k = some (.journey j)) ∧ j.Car_Component_ID = Car_Component_ID) ∧
    (∀ j, j.Journey_date = s ∨ j.Journey_date = e →
      j ∉ (queryJourneys st Car_Component_ID).filter fun j =>
        s < j.Journey_date ∧ j.Journey_date < e) ∧
    (∀ (F : FuelcellData) (comps : List CarComponent) (total : ℚ),
      ((∀ c ∈ comps, plainID c.Car_Component_ID) →
        costComponents st F startDate endDate comps total
          = .ok (total + ((chargedJourneys st comps s e).map (JourneyCost F)).sum)) ∧
      ∀ j ∈ chargedJourneys st comps s e, j.Journey_date ≠ s ∧ j.Journey_date ≠ e) := by
  refine ⟨?_, mem_queryJourneys st Car_Component_ID, ?_, ?_⟩
  · rw [getJourneys_eq st (pastedKind_of_plainID hid) hs he]; rfl
  · intro j hj hmem
    have := (List.mem_filter.1 hmem).2
    simp only [decide_eq_true_eq] at this
    omega
  · intro F comps total
    refine ⟨?_, ?_⟩
    · intro hplain
      rw [costComponents_eq st F hs he comps total, journeyQueryFault_of_plain comps hplain]
    · intro j hj
      obtain ⟨c, _, hrel, _⟩ := mem_chargedJourneys.1 hj
      obtain ⟨_, _, hlo, hhi⟩ := (mem_relevantJourneys st _ s e j).1 hrel
      omega

/-- The amended C9 at the fixture: Journey3 is dated 20210127; it is returned for the window
20210126..20210128 and for neither window that has 20210127 as a boundary. -/
theorem C9_journey_selector_witness :
    plainID "Component2" ∧
    Atoi "20210127" = some 20210127 ∧ Atoi "20210128" = some 20210128 ∧
    GetAllJourneysbetweendatesforCarComponent fixture "Component2" "20210127" "20210128"
      = .ok ((queryJourneys fixture "Component2").filter fun j =>
          (20210127 : Int) < j.Journey_date ∧ j.Journey_date < (20210128 : Int)) ∧
    GetAllJourneysbetweendatesforCarComponent fixture "Component2" "20210127" "20210128"
      = .ok [] ∧
    GetAllJourneysbetweendatesforCarComponent fixture "Component2" "20210126" "20210127"
      = .ok [] ∧
    GetAllJourneysbetweendatesforCarComponent fixture "Component2" "20210126" "20210128"
      = .ok [{ journey3Billed with Billed := false }] :=
  ⟨by decide, by decide, by decide,
    (C9_journey_selector fixture "Component2" "20210127" "20210128" 20210127 20210128
      (by decide) (by decide) (by decide)).1,
    rfl, rfl, rfl⟩

/-- C9 fails for an id with a double quote: for `Fuel"Cell` the selector text of line 354 is
not JSON and the call returns the error of the query, where the claim has it return the
stored journeys with that `Car_Component_ID` inside the window, here none. -/
theorem C9_quoted_id_is_refused :
    quotedID.toList.map Char.toNat = [70, 117, 101, 108, 34, 67, 101, 108, 108] ∧
    Atoi "20210101" = some 20210101 ∧ Atoi "20210131" = some 20210131 ∧
    (queryJourneys fixture quotedID).filter (fun j =>
        (20210101 : Int) < j.Journey_date ∧ j.Journey_date < (20210131 : Int)) = [] ∧
    GetAllJourneysbetweendatesforCarComponent fixture quotedID "20210101" "20210131"
      = .error (.error .query) ∧
    GetAllJourneysbetweendatesforCarComponent fixture quotedID "20210101" "20210131"
      ≠ .ok [] := by
  refine ⟨by decide, by decide, by decide, by decide, rfl, ?_⟩
  have h : GetAllJourneysbetweendatesforCarComponent fixture quotedID "20210101" "20210131"
      = .error (.error .query) := rfl
  rw [h]
  simp

end Chaincode
